import Mathlib

set_option linter.unusedVariables false

/-!
Verification development for the n0m1_agi process-supervision harness.

The definitions below are a shallow embedding of the Python sources:
pure helpers of manager_utils.py become Lean functions, the on-disk PID
handles become an explicit association-list file system, the OS process
world (liveness probes, spawn outcomes, responses to signals) becomes
oracle parameters, and the sqlite lifecycle log becomes an explicit list
of event rows.  Machine-level details that the claims do not touch
(timestamps, autoincrement ids, sleeping) are elided; each definition
names the source lines it translates.
-/

namespace N0m1

/-! ## Models of the Python string primitives used by the managers -/

/-- Model of the ASCII fragment of Python str.isspace, the characters
removed by str.strip: space, tab, newline, carriage return, vertical
tab and form feed. -/
def isPySpace (c : Char) : Bool :=
  c.toNat = 32 || c.toNat = 9 || c.toNat = 10 || c.toNat = 13 || c.toNat = 11 || c.toNat = 12

/-- Strip leading and trailing whitespace from a character list. -/
def stripChars (cs : List Char) : List Char :=
  ((cs.dropWhile isPySpace).reverse.dropWhile isPySpace).reverse

/-- Model of Python str.strip() restricted to ASCII whitespace. -/
def pyStrip (s : String) : String := String.mk (stripChars s.data)

/-- ASCII decimal digit test. -/
def isAsciiDigit (c : Char) : Bool := 48 ≤ c.toNat && c.toNat ≤ 57

/-- Numeric value of an ASCII digit character. -/
def digitVal (c : Char) : Nat := c.toNat - 48

/-- Character for a decimal digit. -/
def digitChar (d : Nat) : Char := Char.ofNat (48 + d)

/-- Accumulating parser for the digit body of a Python int literal:
digits, with single underscores allowed between two digits (Python
int("1_0") is 10, while "_1", "1_" and "1__0" raise ValueError). -/
def pyUIntAux (acc : Nat) : List Char → Option Nat
  | [] => some acc
  | c :: rest =>
    if isAsciiDigit c then pyUIntAux (10 * acc + digitVal c) rest
    else if c = '_' then
      match rest with
      | [] => none
      | d :: rest2 =>
        if isAsciiDigit d then pyUIntAux (10 * acc + digitVal d) rest2 else none
    else none

/-- Parse a nonempty digit body (no sign). -/
def pyUIntChars : List Char → Option Nat
  | [] => none
  | c :: rest => if isAsciiDigit c then pyUIntAux (digitVal c) rest else none

/-- Model of Python int(s) on decimal text: strip whitespace, optional
sign, digit body; returns none where Python raises ValueError. -/
def pyInt? (s : String) : Option Int :=
  match stripChars s.data with
  | [] => none
  | c :: rest =>
    if c = '+' then (pyUIntChars rest).map Int.ofNat
    else if c = '-' then (pyUIntChars rest).map (fun n => -(Int.ofNat n))
    else (pyUIntChars (c :: rest)).map Int.ofNat

/-- Decimal digit string of a natural number, with explicit fuel so the
definition is structural and kernel-reducible. -/
def natCharsAux : Nat → Nat → List Char
  | 0, _ => []
  | fuel + 1, n =>
    if n < 10 then [digitChar n]
    else natCharsAux fuel (n / 10) ++ [digitChar (n % 10)]

/-- Decimal digit string of a natural number (n itself is enough fuel). -/
def natChars (n : Nat) : List Char := natCharsAux (n + 1) n

/-- Model of Python str on an int. -/
def pyStrOfInt (i : Int) : String :=
  if i < 0 then String.mk ('-' :: natChars i.natAbs) else String.mk (natChars i.natAbs)

/-! ## File system model

PID handle files live in an association list from path to content.
ioFail lists the paths whose open/remove raises IOError/OSError, so the
error branches of the source stay representable. -/

/-- First-match association-list lookup. -/
def lookupFile : List (String × String) → String → Option String
  | [], _ => none
  | (k, v) :: rest, p => if k = p then some v else lookupFile rest p

structure FileSys where
  files : List (String × String)
  ioFail : List String
deriving Repr, DecidableEq

/-- Content of a file, none when absent. -/
def FileSys.read (fs : FileSys) (p : String) : Option String := lookupFile fs.files p

/-- Model of os.path.exists. -/
def FileSys.pathExists (fs : FileSys) (p : String) : Bool := (fs.read p).isSome

/-- True when open/remove on this path does not raise. -/
def FileSys.canTouch (fs : FileSys) (p : String) : Bool := !(p ∈ fs.ioFail : Bool)

/-- Overwrite (mode w) a file. -/
def FileSys.write (fs : FileSys) (p c : String) : FileSys :=
  { fs with files := (p, c) :: fs.files.filter (fun kv => decide (kv.1 ≠ p)) }

/-- Model of os.remove. -/
def FileSys.erase (fs : FileSys) (p : String) : FileSys :=
  { fs with files := fs.files.filter (fun kv => decide (kv.1 ≠ p)) }

/-! ## manager_utils.py: PID handle primitives -/

/-- Translated from manager_utils.get_pid_file_path (lines 29-31):
os.path.join(pid_dir, component_id + ".pid"), POSIX separator. -/
def get_pid_file_path (pid_dir component_id : String) : String :=
  pid_dir ++ "/" ++ component_id ++ ".pid"

/-- Translated from manager_utils.read_pid_file (lines 43-53): returns
none when the file does not exist, when open raises IOError, when the
stripped content is empty, or when int() raises ValueError; otherwise
the parsed integer.  The Lean function is total, matching the source
contract of never raising. -/
def read_pid_file (fs : FileSys) (pid_file : String) : Option Int :=
  match fs.read pid_file with
  | none => none
  | some content =>
    if fs.canTouch pid_file then
      if pyStrip content = "" then none else pyInt? (pyStrip content)
    else none

/-- Translated from manager_utils.write_pid_file (lines 55-63): writes
str(pid) in mode w, returning true on success and false when open
raises IOError (error printed, not raised). -/
def write_pid_file (fs : FileSys) (pid_file : String) (pid : Int) : FileSys × Bool :=
  if fs.canTouch pid_file then (fs.write pid_file (pyStrOfInt pid), true) else (fs, false)

/-- Translated from manager_utils.remove_pid_file (lines 65-74): true if
removed or absent, false when os.remove raises OSError. -/
def remove_pid_file (fs : FileSys) (pid_file : String) : FileSys × Bool :=
  if fs.pathExists pid_file then
    if fs.canTouch pid_file then (fs.erase pid_file, true) else (fs, false)
  else (fs, true)

/-! ## Lifecycle event log

A row of component_lifecycle_log as inserted by the managers; the
autoincrement id and the timestamp column are elided. -/

structure LifecycleEvent where
  component_id : String
  process_pid : Option Int
  event_type : String
  run_type : Option String
  message : String
  manager_script : String
  script_path : Option String
deriving Repr, DecidableEq

/-- STOP_REQUESTED row, manager_utils.py lines 90-93. -/
def stop_requested_event (component_id : String) (pid : Int) (manager_id : String) : LifecycleEvent :=
  ⟨component_id, some pid, "STOP_REQUESTED", none, manager_id ++ " requesting stop", manager_id, none⟩

/-- STOPPED_SUCCESSFULLY row for a graceful exit, manager_utils.py lines 105-108. -/
def stopped_gracefully_event (component_id : String) (pid : Int) (manager_id : String) : LifecycleEvent :=
  ⟨component_id, some pid, "STOPPED_SUCCESSFULLY", none, "Process terminated gracefully", manager_id, none⟩

/-- STOPPED_FORCEFULLY row, manager_utils.py lines 119-122. -/
def stopped_forcefully_event (component_id : String) (pid : Int) (manager_id : String) : LifecycleEvent :=
  ⟨component_id, some pid, "STOPPED_FORCEFULLY", none, "Process killed with SIGKILL", manager_id, none⟩

/-- STOP_FAILED row, manager_utils.py lines 126-129. -/
def stop_failed_event (component_id : String) (pid : Int) (manager_id : String) : LifecycleEvent :=
  ⟨component_id, some pid, "STOP_FAILED", none, "Failed to stop process", manager_id, none⟩

/-- STOPPED_SUCCESSFULLY row for the already-stopped branch,
nano_manager.py lines 118-127 and main_llm_manager.py lines 120-129. -/
def already_stopped_event (component_id : String) (pid : Option Int) (manager_id : String) : LifecycleEvent :=
  ⟨component_id, pid, "STOPPED_SUCCESSFULLY", none, "Already stopped", manager_id, none⟩

/-! ## Stop-with-timeout protocol (manager_utils.py lines 76-142)

The clock and the polling loop are abstracted into the possible control
paths of the source: each constructor of StopBehavior names exactly one
of the disjoint ways the target process can respond, matching one branch
of stop_component_with_timeout. -/

/-- How the process with the given PID behaves under the stop protocol:
it may be gone already when the first signal is sent
(ProcessLookupError), the signal may be refused (PermissionError), it
may exit within the bounded wait after the graceful signal, only after
the forceful kill plus the one-second recheck wait, or not at all. -/
inductive StopBehavior
  | alreadyDead
  | permissionDenied
  | exitsGracefully
  | exitsOnKill
  | unkillable
deriving Repr, DecidableEq

/-- Translated from manager_utils.stop_component_with_timeout (lines
76-142), with the default bounded wait of 10 seconds and the default
graceful signal SIGTERM abstracted into StopBehavior.  Returns the
success flag together with the lifecycle rows recorded, in order. -/
def stop_component_with_timeout (component_id : String) (pid : Int) (manager_id : String)
    (b : StopBehavior) : Bool × List LifecycleEvent :=
  let req := stop_requested_event component_id pid manager_id
  match b with
  | .alreadyDead => (true, [req])
  | .permissionDenied => (false, [req])
  | .exitsGracefully => (true, [req, stopped_gracefully_event component_id pid manager_id])
  | .exitsOnKill => (true, [req, stopped_forcefully_event component_id pid manager_id])
  | .unkillable => (false, [req, stop_failed_event component_id pid manager_id])

/-- Result of one manager-level stop or start operation. -/
structure StopOutcome where
  success : Bool
  events : List LifecycleEvent
  fs : FileSys
deriving Repr, DecidableEq

/-- Project directory of the managers; the runtime value is the
directory of the script, so any fixed path models it. -/
def PROJECT_DIR : String := "/home/user/n0m1_agi"

/-- pids directory, nano_manager.py line 22. -/
def PID_DIR : String := PROJECT_DIR ++ "/pids"

/-- logs directory, nano_manager.py line 23. -/
def LOGS_DIR : String := PROJECT_DIR ++ "/logs"

/-- venv interpreter path, manager_utils.get_venv_python on POSIX. -/
def VENV_PYTHON_PATH : String := PROJECT_DIR ++ "/venv/bin/python"

/-- Translated from nano_manager.stop_component (lines 112-144);
main_llm_manager.stop_component (lines 114-146) is textually identical
apart from its MANAGER_ID, so the manager identity is a parameter.
alive models is_process_running (os.kill(pid, 0)); behave gives the
behavior of a live process under the stop protocol.  Python truthiness:
a pid of 0 read from the file takes the already-stopped branch. -/
def stop_component (manager_id : String) (fs : FileSys) (alive : Int → Bool)
    (behave : Int → StopBehavior) (component_id : String) : StopOutcome :=
  let pid_file := get_pid_file_path PID_DIR component_id
  match read_pid_file fs pid_file with
  | none =>
    (fun fs2 => ⟨true, [already_stopped_event component_id none manager_id], fs2⟩)
      (remove_pid_file fs pid_file).1
  | some p =>
    if decide (p ≠ 0) && alive p then
      let r := stop_component_with_timeout component_id p manager_id (behave p)
      if r.1 then ⟨true, r.2, (remove_pid_file fs pid_file).1⟩
      else ⟨false, r.2, fs⟩
    else
      (fun fs2 => ⟨true, [already_stopped_event component_id (some p) manager_id], fs2⟩)
        (remove_pid_file fs pid_file).1

/-! ## Component registry and launch-argument parsing

The serialized launch_args_json column is consumed through the Python
standard-library json.loads, which is external to the repository; the
registry row therefore carries the parse outcome as an oracle value:
either the column is NULL or empty (falsy, so parsing is skipped), or
it strips to the two-character empty-object literal (also skipped), or
json.loads yields an object whose values have already been rendered
through str, or it yields a non-object (so the .items() call in the
source raises AttributeError), or json.loads raises JSONDecodeError. -/

inductive PyArgs
  | absent
  | emptyObj
  | obj (pairs : List (String × String))
  | nonObj (raw : String)
  | malformed (raw : String)
deriving Repr, DecidableEq

/-- A row of the autorun_components registry table, restricted to the
columns the reconciliation pass selects plus the two columns of its
WHERE clause. -/
structure AutorunRow where
  component_id : String
  base_script_name : String
  launch_args_json : PyArgs
  run_type_on_boot : String
  manager_affinity : String
  desired_state : String
deriving Repr, DecidableEq

/-- Translated from the registry query of
ensure_autorun_components_active (nano_manager.py lines 167-171,
identically daemon_manager.py lines 174-178 and main_llm_manager.py
lines 169-173): SELECT ... WHERE manager_affinity = ? AND
desired_state = an active marker. -/
def select_components (registry : List AutorunRow) (manager_id : String) : List AutorunRow :=
  registry.filter (fun r => decide (r.manager_affinity = manager_id) && decide (r.desired_state = "active"))

/-- Translated from the launch-argument block of
ensure_autorun_components_active (nano_manager.py lines 185-194):
returns the flat argument list and any warning printed, or the
AttributeError text when json.loads produced a non-object. -/
def parse_launch_args (manager_id component_id : String) (a : PyArgs) :
    Except String (List String × List String) :=
  match a with
  | .absent => .ok ([], [])
  | .emptyObj => .ok ([], [])
  | .obj pairs => .ok ((pairs.map (fun kv => [kv.1, kv.2])).flatten, [])
  | .nonObj _ => .error "AttributeError: object has no attribute items"
  | .malformed raw =>
    .ok ([], ["[" ++ manager_id ++ "] WARNING: Could not parse launch_args_json for "
              ++ component_id ++ ": " ++ raw])

/-- The PID-handle liveness predicate shared by start_component (lines
68-75) and get_component_status (lines 152-158): read the handle, and
treat the component as running iff the parsed pid is truthy (nonzero)
and the process answers the liveness probe. -/
def pid_live (fs : FileSys) (alive : Int → Bool) (component_id : String) : Bool :=
  match read_pid_file fs (get_pid_file_path PID_DIR component_id) with
  | some p => decide (p ≠ 0) && alive p
  | none => false

/-- START_ATTEMPT row inserted by nano_manager.start_component (lines
81-90): process_pid and script_path are NULL, manager_script is the
basename of the manager file. -/
def start_attempt_event (component_id base_script_name run_type : String) : LifecycleEvent :=
  ⟨component_id, none, "START_ATTEMPT", some run_type,
   "Manager nano_manager attempting to start " ++ base_script_name, "nano_manager.py", none⟩

/-- Result of start_component: the file system after any PID handle
write, the lifecycle rows inserted, console lines printed, and the
returned flag. -/
structure StartOutcome where
  fs : FileSys
  events : List LifecycleEvent
  console : List String
  result : Bool
deriving Repr, DecidableEq

/-- Translated from nano_manager.start_component (lines 64-110).
spawn is the OS oracle for subprocess.Popen on the command built for
this component: some pid on success, none when Popen raises.  The
inline PID-file check of lines 68-75 (open, strip, int, bare except
pass) is pid_live.  A failure to write the PID handle after a
successful spawn is the exception branch of lines 100-110: the
function returns false and the handle is not written. -/
def start_component (fs : FileSys) (alive : Int → Bool) (spawn : String → Option Int)
    (component_id base_script_name : String) (launch_args_list : List String)
    (run_type : String) : StartOutcome :=
  if pid_live fs alive component_id then ⟨fs, [], [], true⟩
  else if !(fs.pathExists (PROJECT_DIR ++ "/" ++ base_script_name)) then
    ⟨fs, [], ["[nano_manager] ERROR: Script " ++ base_script_name ++ " for "
              ++ component_id ++ " not found. Skipping."], false⟩
  else
    match spawn component_id with
    | none =>
      ⟨fs, [start_attempt_event component_id base_script_name run_type],
       ["[nano_manager] Error starting component " ++ component_id], false⟩
    | some newPid =>
      if fs.canTouch (get_pid_file_path PID_DIR component_id) then
        ⟨fs.write (get_pid_file_path PID_DIR component_id) (pyStrOfInt newPid),
         [start_attempt_event component_id base_script_name run_type],
         ["[nano_manager] Component " ++ component_id ++ " started with PID "
          ++ pyStrOfInt newPid], true⟩
      else
        ⟨fs, [start_attempt_event component_id base_script_name run_type],
         ["[nano_manager] Error starting component " ++ component_id], false⟩

/-- Observable state accumulated by one reconciliation pass: the file
system, the lifecycle rows, the console output, the selected components
visited by the loop in order, and every invocation of start_component
with its flat argument list. -/
structure PassState where
  fs : FileSys
  events : List LifecycleEvent
  console : List String
  visited : List String
  starts : List (String × List String)
deriving Repr, DecidableEq

/-- Console line printed for an inactive component (line 184). -/
def inactive_msg (component_id : String) : String :=
  "[nano_manager] Autorun component " ++ component_id ++ " found inactive. Attempting to start."

/-- State after the start_component call of one loop iteration. -/
def row_start (alive : Int → Bool) (spawn : String → Option Int)
    (st : PassState) (r : AutorunRow) (args warns : List String) : PassState :=
  ⟨(start_component st.fs alive spawn r.component_id r.base_script_name args
      r.run_type_on_boot).fs,
   st.events ++ (start_component st.fs alive spawn r.component_id r.base_script_name args
      r.run_type_on_boot).events,
   ((st.console ++ [inactive_msg r.component_id]) ++ warns)
     ++ (start_component st.fs alive spawn r.component_id r.base_script_name args
      r.run_type_on_boot).console,
   st.visited ++ [r.component_id],
   st.starts ++ [(r.component_id, args)]⟩

/-- Translated from one iteration of the loop of
ensure_autorun_components_active (nano_manager.py lines 179-197):
status check via the PID handle, inactive message, launch-argument
parsing, then start_component.  The second component of the result is
some error text when an exception (the AttributeError of a non-object
json value) escapes the iteration; only sqlite3.Error is caught by the
surrounding try, so such an exception aborts the pass. -/
def process_row (alive : Int → Bool) (spawn : String → Option Int)
    (st : PassState) (r : AutorunRow) : PassState × Option String :=
  if pid_live st.fs alive r.component_id then
    (⟨st.fs, st.events, st.console, st.visited ++ [r.component_id], st.starts⟩, none)
  else
    match parse_launch_args "nano_manager" r.component_id r.launch_args_json with
    | .error e =>
      (⟨st.fs, st.events, st.console ++ [inactive_msg r.component_id],
        st.visited ++ [r.component_id], st.starts⟩, some e)
    | .ok (args, warns) => (row_start alive spawn st r args warns, none)

/-- The loop of ensure_autorun_components_active over the selected
rows, stopping early when an exception escapes an iteration. -/
def run_rows (alive : Int → Bool) (spawn : String → Option Int) :
    List AutorunRow → PassState → PassState × Option String
  | [], st => (st, none)
  | r :: rest, st =>
    match process_row alive spawn st r with
    | (st2, none) => run_rows alive spawn rest st2
    | (st2, some e) => (st2, some e)

/-- Translated from nano_manager.ensure_autorun_components_active
(lines 161-203): select the partition of the registry owned by
nano_manager with desired_state active, then process each row in the
returned order.  The time.sleep stagger and the log_db_access
provenance call (whose definition is modelled separately below) do not
affect the state modelled here. -/
def ensure_autorun_components_active (registry : List AutorunRow) (alive : Int → Bool)
    (spawn : String → Option Int) (fs : FileSys) : PassState × Option String :=
  run_rows alive spawn (select_components registry "nano_manager") ⟨fs, [], [], [], []⟩

/-! ## Spawn configuration (claim about process detachment)

The keyword arguments of the subprocess.Popen call made by
start_component, made explicit so the presence or absence of the
POSIX new-session / Windows new-process-group flags is a stated fact
of the embedding. -/

structure PopenConfig where
  args : List String
  cwd : String
  stdoutPath : String
  stdoutMode : String
  stderrPath : String
  stderrMode : String
  newSession : Bool
  newProcessGroup : Bool
deriving Repr, DecidableEq

/-- Translated from the Popen call of nano_manager.start_component
(lines 92-104); daemon_manager.start_component lines 107-119 and
main_llm_manager.start_component lines 93-105 build the identical
call.  Only cwd, stdout and stderr are passed: no preexec_fn,
no start_new_session, no creationflags, so both detachment flags
are the Popen defaults, false. -/
def start_component_popen_config (component_id script_path : String)
    (launch_args_list : List String) (run_type : String) : PopenConfig :=
  { args := [VENV_PYTHON_PATH, script_path] ++ launch_args_list ++ ["--run_type", run_type]
    cwd := PROJECT_DIR
    stdoutPath := LOGS_DIR ++ "/" ++ component_id ++ ".log"
    stdoutMode := "a"
    stderrPath := LOGS_DIR ++ "/" ++ component_id ++ ".err"
    stderrMode := "a"
    newSession := false
    newProcessGroup := false }

/-- Operating-system selector for the launch helper. -/
inductive OsKind
  | posix
  | windows
deriving Repr, DecidableEq

/-- Modelled from the spec: launchDetached of spec section 4.1 — the
manager_utils launch helper whose definition is absent from
src/manager_utils.py although tests/test_manager_utils.py (lines
59-95) imports and exercises it — starts the process detached, on
POSIX in a new session (preexec_fn=os.setsid) and on Windows in its
own process group (CREATE_NEW_PROCESS_GROUP), with the supplied
output sinks. -/
def launch_subprocess_config (os : OsKind) (cmd : List String) (cwd : String)
    (stdoutPath stderrPath : String) : PopenConfig :=
  { args := cmd
    cwd := cwd
    stdoutPath := stdoutPath
    stdoutMode := "a"
    stderrPath := stderrPath
    stderrMode := "a"
    newSession := os = OsKind.posix
    newProcessGroup := os = OsKind.windows }

/-! ## Data-access provenance log (claim C5) -/

/-- A row of the db_access_log table (timestamp elided), as created by
tests/test_db_access_logging.py lines 52-59 and spec section 6. -/
structure AccessRow where
  component_id : String
  table_name : String
  access_type : String
deriving Repr, DecidableEq

/-- The data-access log store; storageFailing models a sqlite3.Error
raised by the storage layer on this database. -/
structure AccessDb where
  rows : List AccessRow
  storageFailing : Bool
deriving Repr, DecidableEq

/-- Modelled from the spec: log_db_access(db_path, component_id,
table_name, access_type) — imported from manager_utils by
nano_manager.py, llm_processor.py, nano_instance.py and
llm_command_daemon.py and exercised by tests/test_db_access_logging.py,
but absent from src/manager_utils.py — inserts one row into the
data-access log; on a storage failure it reports the error locally
(console) and returns normally, never aborting the caller (spec
sections 4.2 and 7: storage-layer errors are always non-fatal,
printed locally and swallowed).  Returns the new store, the success
flag, and the console lines printed. -/
def log_db_access (db : AccessDb) (component_id table_name access_type : String) :
    AccessDb × Bool × List String :=
  if db.storageFailing then
    (db, false, ["Database error logging data access for " ++ component_id])
  else
    ({ db with rows := db.rows ++ [⟨component_id, table_name, access_type⟩] }, true, [])

/-! ## Boot orchestrator health monitoring (boot_system_enhanced.py) -/

/-- The per-manager configuration consulted by the monitor: the display
name and the criticality flag (config.get with default true already
applied). -/
structure ManagerCfg where
  name : String
  critical : Bool
deriving Repr, DecidableEq

/-- A supervisor tracked in BootSystem.launched_managers: its script
key, the child PID, and whether process.poll() observes an exit. -/
structure TrackedManager where
  script : String
  pid : Int
  exited : Bool
deriving Repr, DecidableEq

/-- Translated from BootSystem.check_manager_health
(boot_system_enhanced.py lines 196-208): healthy iff poll() is None. -/
def check_manager_health (m : TrackedManager) : Bool := !m.exited

/-- MANAGER_CRASHED row as written by BootSystem.log_manager_event
(lines 180-194). -/
def manager_crashed_event (script : String) (pid : Int) : LifecycleEvent :=
  ⟨"boot_" ++ script, some pid, "MANAGER_CRASHED", none,
   "Boot system event for " ++ script, "boot_system.py", none⟩

/-- MANAGER_STARTED row logged by BootSystem.launch_manager on a
successful launch (lines 157-168). -/
def manager_started_event (script : String) (pid : Int) : LifecycleEvent :=
  ⟨"boot_" ++ script, some pid, "MANAGER_STARTED", none,
   "Boot system event for " ++ script, "boot_system.py", none⟩

/-- Result of one iteration of the monitoring loop over the tracked
managers: the new tracked set, lifecycle rows, console lines, and the
scripts for which launch_manager was invoked. -/
structure MonitorResult where
  tracked : List TrackedManager
  events : List LifecycleEvent
  console : List String
  launches : List String
deriving Repr, DecidableEq

/-- How one tracked manager is handled by one iteration of
BootSystem.monitor_managers (boot_system_enhanced.py lines 220-247):
a manager whose health-check interval is not due (oracle due), or
whose process is healthy, is kept; one observed to have exited is
handled by its criticality flag: critical managers get a
MANAGER_CRASHED row and launch_manager is invoked once (oracle
relaunch: some new pid re-tracks it and logs MANAGER_STARTED, none
leaves it untracked); non-critical managers are removed with a
console line and no relaunch. -/
def monitor_one (cfg : String → ManagerCfg) (due : String → Bool)
    (relaunch : String → Option Int) (m : TrackedManager) : MonitorResult :=
  if !(due m.script) then ⟨[m], [], [], []⟩
  else if check_manager_health m then ⟨[m], [], [], []⟩
  else
    let c := cfg m.script
    let crashedMsg := "[BOOT] " ++ c.name ++ " appears to have crashed!"
    if c.critical then
      match relaunch m.script with
      | some newPid =>
        ⟨[⟨m.script, newPid, false⟩],
         [manager_crashed_event m.script m.pid, manager_started_event m.script newPid],
         [crashedMsg, "[BOOT] " ++ c.name ++ " restarted successfully."],
         [m.script]⟩
      | none =>
        ⟨[], [manager_crashed_event m.script m.pid],
         [crashedMsg, "[BOOT] Failed to restart " ++ c.name ++ ". System may be unstable."],
         [m.script]⟩
    else
      ⟨[], [],
       [crashedMsg, "[BOOT] " ++ c.name ++ " is non-critical. Not restarting."],
       []⟩

/-- Concatenation of per-manager monitoring results, in loop order. -/
def MonitorResult.append (a b : MonitorResult) : MonitorResult :=
  ⟨a.tracked ++ b.tracked, a.events ++ b.events, a.console ++ b.console,
   a.launches ++ b.launches⟩

/-- Translated from one iteration of BootSystem.monitor_managers
(boot_system_enhanced.py lines 210-253): the loop over
list(self.launched_managers.items()) handles each tracked manager in
order with monitor_one and accumulates the effects. -/
def monitor_step (cfg : String → ManagerCfg) (due : String → Bool)
    (relaunch : String → Option Int) : List TrackedManager → MonitorResult
  | [] => ⟨[], [], [], []⟩
  | m :: rest =>
    (monitor_one cfg due relaunch m).append (monitor_step cfg due relaunch rest)

/-- Left fold computing the value of a digit string on top of an
accumulator (specification device for the int parser). -/
def chainVal (acc : Nat) (cs : List Char) : Nat :=
  cs.foldl (fun a c => 10 * a + digitVal c) acc

/-! ## Helper lemmas: decimal rendering and parsing round-trip -/

theorem data_mk (l : List Char) : (String.mk l).data = l := rfl

theorem dropWhile_eq_self_of_all {p : Char → Bool} {l : List Char}
    (h : ∀ c ∈ l, p c = false) : l.dropWhile p = l := by
  cases l with
  | nil => rfl
  | cons c rest =>
    simp only [List.dropWhile]
    rw [h c (List.mem_cons_self c rest)]

theorem stripChars_eq_self {cs : List Char} (h : ∀ c ∈ cs, isPySpace c = false) :
    stripChars cs = cs := by
  unfold stripChars
  rw [dropWhile_eq_self_of_all h]
  rw [dropWhile_eq_self_of_all (by intro c hc; exact h c (List.mem_reverse.mp hc))]
  exact List.reverse_reverse cs

theorem digitVal_digitChar {d : Nat} (h : d < 10) : digitVal (digitChar d) = d := by
  interval_cases d <;> decide

theorem isAsciiDigit_digitChar {d : Nat} (h : d < 10) : isAsciiDigit (digitChar d) = true := by
  interval_cases d <;> decide

theorem isPySpace_of_digit {c : Char} (h : isAsciiDigit c = true) : isPySpace c = false := by
  simp only [isAsciiDigit, Bool.and_eq_true, decide_eq_true_eq] at h
  simp only [isPySpace, Bool.or_eq_false_iff, decide_eq_false_iff_not]
  omega

theorem ne_plus_of_digit {c : Char} (h : isAsciiDigit c = true) : c ≠ '+' := by
  intro he
  subst he
  exact absurd h (by decide)

theorem ne_minus_of_digit {c : Char} (h : isAsciiDigit c = true) : c ≠ '-' := by
  intro he
  subst he
  exact absurd h (by decide)

theorem natCharsAux_digits {fuel : Nat} : ∀ {n : Nat}, n < fuel →
    ∀ c ∈ natCharsAux fuel n, isAsciiDigit c = true := by
  induction fuel with
  | zero => intro n h; omega
  | succ fuel ih =>
    intro n h c hc
    unfold natCharsAux at hc
    by_cases h10 : n < 10
    · rw [if_pos h10] at hc
      simp only [List.mem_singleton] at hc
      subst hc
      exact isAsciiDigit_digitChar h10
    · rw [if_neg h10] at hc
      rcases List.mem_append.mp hc with hc | hc
      · exact ih (by omega) c hc
      · simp only [List.mem_singleton] at hc
        subst hc
        exact isAsciiDigit_digitChar (Nat.mod_lt n (by omega))

theorem natCharsAux_ne_nil {fuel n : Nat} (h : n < fuel) : natCharsAux fuel n ≠ [] := by
  cases fuel with
  | zero => omega
  | succ fuel =>
    unfold natCharsAux
    by_cases h10 : n < 10
    · rw [if_pos h10]; simp
    · rw [if_neg h10]; simp

theorem chainVal_append (acc : Nat) (xs ys : List Char) :
    chainVal acc (xs ++ ys) = chainVal (chainVal acc xs) ys := by
  simp [chainVal, List.foldl_append]

theorem natCharsAux_chainVal {fuel : Nat} : ∀ {n : Nat}, n < fuel → ∀ acc,
    chainVal acc (natCharsAux fuel n) = acc * 10 ^ (natCharsAux fuel n).length + n := by
  induction fuel with
  | zero => intro n h; omega
  | succ fuel ih =>
    intro n h acc
    unfold natCharsAux
    by_cases h10 : n < 10
    · rw [if_pos h10]
      simp only [chainVal, List.foldl, digitVal_digitChar h10, List.length_singleton, pow_one]
      ring
    · rw [if_neg h10]
      rw [chainVal_append]
      have hrec := @ih (n / 10) (by omega) acc
      have hmod : n % 10 < 10 := Nat.mod_lt n (by omega)
      have hdm := Nat.div_add_mod n 10
      simp only [chainVal, List.foldl, digitVal_digitChar hmod] at *
      rw [hrec]
      rw [List.length_append, List.length_singleton, pow_succ]
      ring_nf
      omega

theorem pyUIntAux_digits {cs : List Char} (h : ∀ c ∈ cs, isAsciiDigit c = true) (acc : Nat) :
    pyUIntAux acc cs = some (chainVal acc cs) := by
  induction cs generalizing acc with
  | nil => simp [pyUIntAux, chainVal]
  | cons c rest ih =>
    have hc : isAsciiDigit c = true := h c (List.mem_cons_self c rest)
    have hrest : ∀ x ∈ rest, isAsciiDigit x = true :=
      fun x hx => h x (List.mem_cons_of_mem c hx)
    unfold pyUIntAux
    rw [if_pos hc]
    rw [ih hrest]
    simp [chainVal]

theorem pyUIntChars_of_digits {cs : List Char} (hne : cs ≠ [])
    (h : ∀ c ∈ cs, isAsciiDigit c = true) : pyUIntChars cs = some (chainVal 0 cs) := by
  cases cs with
  | nil => exact absurd rfl hne
  | cons c rest =>
    have hc : isAsciiDigit c = true := h c (List.mem_cons_self c rest)
    have hrest : ∀ x ∈ rest, isAsciiDigit x = true :=
      fun x hx => h x (List.mem_cons_of_mem c hx)
    show (if isAsciiDigit c = true then pyUIntAux (digitVal c) rest else none)
        = some (chainVal 0 (c :: rest))
    rw [if_pos hc]
    rw [pyUIntAux_digits hrest]
    simp [chainVal]

theorem natChars_digits {n : Nat} : ∀ c ∈ natChars n, isAsciiDigit c = true :=
  natCharsAux_digits (Nat.lt_succ_self n)

theorem natChars_ne_nil (n : Nat) : natChars n ≠ [] :=
  natCharsAux_ne_nil (Nat.lt_succ_self n)

theorem pyUIntChars_natChars (n : Nat) : pyUIntChars (natChars n) = some n := by
  rw [pyUIntChars_of_digits (natChars_ne_nil n) natChars_digits]
  have := natCharsAux_chainVal (Nat.lt_succ_self n) 0
  unfold natChars
  rw [this]
  simp

theorem pyStrOfInt_data_nonneg {i : Int} (h : 0 ≤ i) :
    (pyStrOfInt i).data = natChars i.natAbs := by
  unfold pyStrOfInt
  rw [if_neg (by omega)]

theorem pyStrOfInt_data_neg {i : Int} (h : i < 0) :
    (pyStrOfInt i).data = '-' :: natChars i.natAbs := by
  unfold pyStrOfInt
  rw [if_pos h]

theorem noSpace_natChars {m : Nat} : ∀ c ∈ natChars m, isPySpace c = false :=
  fun c hc => isPySpace_of_digit (natChars_digits c hc)

theorem noSpace_minus_natChars {m : Nat} : ∀ c ∈ '-' :: natChars m, isPySpace c = false := by
  intro c hc
  rcases List.mem_cons.mp hc with hc | hc
  · subst hc; decide
  · exact noSpace_natChars c hc

theorem pyInt?_pyStrOfInt (i : Int) : pyInt? (pyStrOfInt i) = some i := by
  by_cases hneg : i < 0
  · unfold pyInt?
    rw [pyStrOfInt_data_neg hneg]
    rw [stripChars_eq_self noSpace_minus_natChars]
    show (if ('-' : Char) = '+' then (pyUIntChars (natChars i.natAbs)).map Int.ofNat
          else if ('-' : Char) = '-' then
            (pyUIntChars (natChars i.natAbs)).map (fun n => -(Int.ofNat n))
          else (pyUIntChars ('-' :: natChars i.natAbs)).map Int.ofNat) = some i
    rw [if_neg (by decide), if_pos rfl]
    rw [pyUIntChars_natChars]
    simp only [Option.map_some']
    congr 1
    show -((i.natAbs : Int)) = i
    omega
  · unfold pyInt?
    rw [pyStrOfInt_data_nonneg (by omega)]
    rw [stripChars_eq_self noSpace_natChars]
    cases hnc : natChars i.natAbs with
    | nil => exact absurd hnc (natChars_ne_nil _)
    | cons c rest =>
      have hc : isAsciiDigit c = true := by
        apply natChars_digits
        rw [hnc]
        exact List.mem_cons_self c rest
      show (if c = '+' then (pyUIntChars rest).map Int.ofNat
            else if c = '-' then (pyUIntChars rest).map (fun n => -(Int.ofNat n))
            else (pyUIntChars (c :: rest)).map Int.ofNat) = some i
      rw [if_neg (ne_plus_of_digit hc), if_neg (ne_minus_of_digit hc)]
      rw [← hnc, pyUIntChars_natChars]
      simp only [Option.map_some']
      congr 1
      show ((i.natAbs : Int)) = i
      omega

theorem pyStrip_pyStrOfInt (i : Int) : pyStrip (pyStrOfInt i) = pyStrOfInt i := by
  by_cases hneg : i < 0
  · unfold pyStrip
    rw [pyStrOfInt_data_neg hneg]
    rw [stripChars_eq_self noSpace_minus_natChars]
    unfold pyStrOfInt
    rw [if_pos hneg]
  · unfold pyStrip
    rw [pyStrOfInt_data_nonneg (by omega)]
    rw [stripChars_eq_self noSpace_natChars]
    unfold pyStrOfInt
    rw [if_neg hneg]

theorem pyStrOfInt_ne_empty (i : Int) : pyStrOfInt i ≠ "" := by
  intro h
  have hd : (pyStrOfInt i).data = [] := by rw [h]
  by_cases hneg : i < 0
  · rw [pyStrOfInt_data_neg hneg] at hd
    exact List.cons_ne_nil _ _ hd
  · rw [pyStrOfInt_data_nonneg (by omega)] at hd
    exact natChars_ne_nil _ hd

/-! ## Helper lemmas: the file-system model -/

theorem lookupFile_nil (p : String) : lookupFile [] p = none := rfl

theorem lookupFile_cons (k v : String) (rest : List (String × String)) (p : String) :
    lookupFile ((k, v) :: rest) p = if k = p then some v else lookupFile rest p := rfl

theorem lookupFile_filter_self {l : List (String × String)} {p : String} :
    lookupFile (l.filter (fun kv => decide (kv.1 ≠ p))) p = none := by
  induction l with
  | nil => rfl
  | cons kv rest ih =>
    obtain ⟨k, v⟩ := kv
    by_cases hk : k = p
    · rw [List.filter_cons_of_neg (by simp [hk])]
      exact ih
    · rw [List.filter_cons_of_pos (by simp [hk])]
      rw [lookupFile_cons, if_neg hk]
      exact ih

theorem lookupFile_filter_ne {l : List (String × String)} {p q : String} (h : q ≠ p) :
    lookupFile (l.filter (fun kv => decide (kv.1 ≠ p))) q = lookupFile l q := by
  induction l with
  | nil => rfl
  | cons kv rest ih =>
    obtain ⟨k, v⟩ := kv
    by_cases hk : k = p
    · rw [List.filter_cons_of_neg (by simp [hk])]
      rw [ih, lookupFile_cons, if_neg (by rw [hk]; exact fun he => h he.symm)]
    · rw [List.filter_cons_of_pos (by simp [hk])]
      rw [lookupFile_cons, lookupFile_cons]
      by_cases hq : k = q
      · rw [if_pos hq, if_pos hq]
      · rw [if_neg hq, if_neg hq]
        exact ih

theorem read_write_self (fs : FileSys) (p c : String) : (fs.write p c).read p = some c := by
  show lookupFile ((p, c) :: fs.files.filter (fun kv => decide (kv.1 ≠ p))) p = some c
  rw [lookupFile_cons, if_pos rfl]

theorem read_write_other (fs : FileSys) (p c q : String) (h : q ≠ p) :
    (fs.write p c).read q = fs.read q := by
  show lookupFile ((p, c) :: fs.files.filter (fun kv => decide (kv.1 ≠ p))) q
      = lookupFile fs.files q
  rw [lookupFile_cons, if_neg (fun he => h he.symm)]
  exact lookupFile_filter_ne h

theorem write_ioFail (fs : FileSys) (p c : String) : (fs.write p c).ioFail = fs.ioFail := rfl

theorem read_erase_self (fs : FileSys) (p : String) : (fs.erase p).read p = none :=
  lookupFile_filter_self

theorem read_erase_other (fs : FileSys) (p q : String) (h : q ≠ p) :
    (fs.erase p).read q = fs.read q :=
  lookupFile_filter_ne h

theorem erase_ioFail (fs : FileSys) (p : String) : (fs.erase p).ioFail = fs.ioFail := rfl

theorem remove_read_none {fs : FileSys} {p : String} (ht : fs.canTouch p = true) :
    ((remove_pid_file fs p).1).read p = none := by
  unfold remove_pid_file
  by_cases he : fs.pathExists p = true
  · rw [if_pos he, if_pos ht]
    exact read_erase_self fs p
  · rw [if_neg he]
    cases hr : fs.read p with
    | none => rfl
    | some c =>
      exfalso
      unfold FileSys.pathExists at he
      rw [hr] at he
      exact absurd rfl he

theorem remove_read_other {fs : FileSys} {p q : String} (h : q ≠ p) :
    ((remove_pid_file fs p).1).read q = fs.read q := by
  unfold remove_pid_file
  by_cases he : fs.pathExists p = true
  · rw [if_pos he]
    by_cases ht : fs.canTouch p = true
    · rw [if_pos ht]
      exact read_erase_other fs p q h
    · rw [if_neg ht]
  · rw [if_neg he]

theorem remove_ioFail (fs : FileSys) (p : String) :
    ((remove_pid_file fs p).1).ioFail = fs.ioFail := by
  unfold remove_pid_file
  by_cases he : fs.pathExists p = true
  · rw [if_pos he]
    by_cases ht : fs.canTouch p = true
    · rw [if_pos ht]
      rfl
    · rw [if_neg ht]
  · rw [if_neg he]

theorem canTouch_of_ioFail_eq {fs fs2 : FileSys} {p : String} (h : fs2.ioFail = fs.ioFail) :
    fs2.canTouch p = fs.canTouch p := by
  unfold FileSys.canTouch
  rw [h]

theorem read_pid_file_eq_of_some {fs : FileSys} {path c : String} (hc : fs.read path = some c) :
    read_pid_file fs path
      = if fs.canTouch path = true then
          (if pyStrip c = "" then none else pyInt? (pyStrip c))
        else none := by
  unfold read_pid_file
  rw [hc]

/-! ## Claim C8 -/

/-- C8: read_pid_file is total: a missing file, a file whose stripped
content is empty, and a file whose content does not parse as a Python
int all yield none (the source catches the corresponding IOError and
ValueError and returns None, and the Lean translation is a total
function, so no exception escapes); a file whose stripped content is
the decimal rendering of an integer n yields some n, provided opening
the file does not itself raise. -/
theorem C8_read_pid_file_total (fs : FileSys) (path : String) :
    (fs.read path = none → read_pid_file fs path = none) ∧
    (∀ c, fs.read path = some c → pyStrip c = "" → read_pid_file fs path = none) ∧
    (∀ c, fs.read path = some c → pyInt? (pyStrip c) = none → read_pid_file fs path = none) ∧
    (∀ (n : Int) c, fs.read path = some c → fs.canTouch path = true →
      pyStrip c = pyStrOfInt n → read_pid_file fs path = some n) := by
  refine ⟨?_, ?_, ?_, ?_⟩
  · intro h
    unfold read_pid_file
    rw [h]
  · intro c hc he
    rw [read_pid_file_eq_of_some hc]
    by_cases ht : fs.canTouch path = true
    · rw [if_pos ht, if_pos he]
    · rw [if_neg ht]
  · intro c hc hparse
    rw [read_pid_file_eq_of_some hc]
    by_cases ht : fs.canTouch path = true
    · rw [if_pos ht]
      by_cases he : pyStrip c = ""
      · rw [if_pos he]
      · rw [if_neg he]
        exact hparse
    · rw [if_neg ht]
  · intro n c hc ht hs
    rw [read_pid_file_eq_of_some hc, if_pos ht, hs, if_neg (pyStrOfInt_ne_empty n)]
    exact pyInt?_pyStrOfInt n

/-- Witness for C8 at concrete files: a file holding 42 with
whitespace, a non-integer file, an empty file, and a missing file. -/
theorem C8_witness :
    read_pid_file ⟨[("a.pid", " 42 ")], []⟩ "a.pid" = some 42 ∧
    read_pid_file ⟨[("b.pid", "xx")], []⟩ "b.pid" = none ∧
    read_pid_file ⟨[("c.pid", "  ")], []⟩ "c.pid" = none ∧
    read_pid_file ⟨[("c.pid", "  ")], []⟩ "missing.pid" = none :=
  ⟨(C8_read_pid_file_total ⟨[("a.pid", " 42 ")], []⟩ "a.pid").2.2.2 42 " 42 "
      (by decide) (by decide) (by decide),
   (C8_read_pid_file_total ⟨[("b.pid", "xx")], []⟩ "b.pid").2.2.1 "xx"
      (by decide) (by decide),
   (C8_read_pid_file_total ⟨[("c.pid", "  ")], []⟩ "c.pid").2.1 "  "
      (by decide) (by decide),
   (C8_read_pid_file_total ⟨[("c.pid", "  ")], []⟩ "missing.pid").1 (by decide)⟩

/-! ## Claim C10 -/

/-- C10: PID handle round-trip: whenever write_pid_file reports
success, reading the handle back yields exactly the written pid, and
the file content is the decimal rendering of the pid regardless of any
previous content (mode w overwrites). -/
theorem C10_write_read_roundtrip (fs : FileSys) (path : String) (pid : Int)
    (h : (write_pid_file fs path pid).2 = true) :
    read_pid_file (write_pid_file fs path pid).1 path = some pid ∧
    ((write_pid_file fs path pid).1).read path = some (pyStrOfInt pid) := by
  have ht : fs.canTouch path = true := by
    by_contra hc
    unfold write_pid_file at h
    rw [if_neg hc] at h
    exact Bool.false_ne_true h
  unfold write_pid_file
  rw [if_pos ht]
  have hread : (fs.write path (pyStrOfInt pid)).read path = some (pyStrOfInt pid) :=
    read_write_self fs path (pyStrOfInt pid)
  refine ⟨?_, hread⟩
  rw [read_pid_file_eq_of_some hread]
  rw [canTouch_of_ioFail_eq (write_ioFail fs path (pyStrOfInt pid)), if_pos ht]
  rw [pyStrip_pyStrOfInt, if_neg (pyStrOfInt_ne_empty pid)]
  exact pyInt?_pyStrOfInt pid

/-- Witness for C10: writing pid 4242 over a stale handle containing
junk, then reading it back. -/
theorem C10_witness :
    (write_pid_file ⟨[("x.pid", "stale")], []⟩ "x.pid" 4242).2 = true ∧
    read_pid_file (write_pid_file ⟨[("x.pid", "stale")], []⟩ "x.pid" 4242).1 "x.pid"
      = some 4242 :=
  ⟨by decide,
   (C10_write_read_roundtrip ⟨[("x.pid", "stale")], []⟩ "x.pid" 4242 (by decide)).1⟩

/-! ## Helper lemmas: the stop protocol -/

theorem stop_component_eq_none {manager_id : String} {fs : FileSys} {alive : Int → Bool}
    {behave : Int → StopBehavior} {component_id : String}
    (hp : read_pid_file fs (get_pid_file_path PID_DIR component_id) = none) :
    stop_component manager_id fs alive behave component_id =
      ⟨true, [already_stopped_event component_id none manager_id],
       (remove_pid_file fs (get_pid_file_path PID_DIR component_id)).1⟩ := by
  unfold stop_component
  simp only [hp]

theorem stop_component_eq_some {manager_id : String} {fs : FileSys} {alive : Int → Bool}
    {behave : Int → StopBehavior} {component_id : String} {p : Int}
    (hp : read_pid_file fs (get_pid_file_path PID_DIR component_id) = some p) :
    stop_component manager_id fs alive behave component_id =
      (if decide (p ≠ 0) && alive p then
        (if (stop_component_with_timeout component_id p manager_id (behave p)).1 then
          ⟨true, (stop_component_with_timeout component_id p manager_id (behave p)).2,
           (remove_pid_file fs (get_pid_file_path PID_DIR component_id)).1⟩
         else
          ⟨false, (stop_component_with_timeout component_id p manager_id (behave p)).2, fs⟩)
       else
        ⟨true, [already_stopped_event component_id (some p) manager_id],
         (remove_pid_file fs (get_pid_file_path PID_DIR component_id)).1⟩) := by
  unfold stop_component
  simp only [hp]

/-! ## Claim C2 -/

/-- C2: once a live process fails to exit within the bounded wait
after the graceful signal, the protocol sends the forceful kill, waits
briefly, re-checks, then either records STOPPED_FORCEFULLY and
succeeds (the process exited) or records STOP_FAILED and fails (still
alive); and on that failure the calling stop_component leaves the file
system — in particular the PID handle — untouched. -/
theorem C2_stop_timeout_escalation (component_id : String) (pid : Int) (manager_id : String)
    (b : StopBehavior) :
    (b = StopBehavior.exitsOnKill →
      stop_component_with_timeout component_id pid manager_id b
        = (true, [stop_requested_event component_id pid manager_id,
                  stopped_forcefully_event component_id pid manager_id])) ∧
    (b = StopBehavior.unkillable →
      stop_component_with_timeout component_id pid manager_id b
        = (false, [stop_requested_event component_id pid manager_id,
                   stop_failed_event component_id pid manager_id])) ∧
    (∀ (fs : FileSys) (alive : Int → Bool) (behave : Int → StopBehavior),
      read_pid_file fs (get_pid_file_path PID_DIR component_id) = some pid →
      pid ≠ 0 → alive pid = true → behave pid = StopBehavior.unkillable →
      (stop_component manager_id fs alive behave component_id).success = false ∧
      (stop_component manager_id fs alive behave component_id).fs = fs) := by
  refine ⟨fun hb => by rw [hb]; rfl, fun hb => by rw [hb]; rfl, ?_⟩
  intro fs alive behave hp hp0 ha hb
  rw [stop_component_eq_some hp]
  rw [if_pos (by simp [hp0, ha])]
  rw [hb]
  rw [if_neg (by simp [stop_component_with_timeout])]
  exact ⟨rfl, rfl⟩

/-- Witness for C2: a process (pid 5, live, unkillable) behind a
concrete PID handle; and the forceful-kill success path. -/
theorem C2_witness :
    stop_component_with_timeout "w" 5 "nano_manager" StopBehavior.exitsOnKill
      = (true, [stop_requested_event "w" 5 "nano_manager",
                stopped_forcefully_event "w" 5 "nano_manager"]) ∧
    stop_component_with_timeout "w" 5 "nano_manager" StopBehavior.unkillable
      = (false, [stop_requested_event "w" 5 "nano_manager",
                 stop_failed_event "w" 5 "nano_manager"]) ∧
    (stop_component "nano_manager"
        ⟨[(get_pid_file_path PID_DIR "w", "5")], []⟩ (fun _ => true)
        (fun _ => StopBehavior.unkillable) "w").success = false ∧
    (stop_component "nano_manager"
        ⟨[(get_pid_file_path PID_DIR "w", "5")], []⟩ (fun _ => true)
        (fun _ => StopBehavior.unkillable) "w").fs
      = ⟨[(get_pid_file_path PID_DIR "w", "5")], []⟩ :=
  ⟨(C2_stop_timeout_escalation "w" 5 "nano_manager" StopBehavior.exitsOnKill).1 rfl,
   (C2_stop_timeout_escalation "w" 5 "nano_manager" StopBehavior.unkillable).2.1 rfl,
   ((C2_stop_timeout_escalation "w" 5 "nano_manager" StopBehavior.unkillable).2.2
      ⟨[(get_pid_file_path PID_DIR "w", "5")], []⟩ (fun _ => true)
      (fun _ => StopBehavior.unkillable) (by decide) (by decide) rfl rfl).1,
   ((C2_stop_timeout_escalation "w" 5 "nano_manager" StopBehavior.unkillable).2.2
      ⟨[(get_pid_file_path PID_DIR "w", "5")], []⟩ (fun _ => true)
      (fun _ => StopBehavior.unkillable) (by decide) (by decide) rfl rfl).2⟩

/-! ## Claim C3 -/

/-- C3: stopping a component whose PID handle is absent, empty,
non-integer (all read_pid_file = none), zero, or pointing to a dead
process records one STOPPED_SUCCESSFULLY row with the already-stopped
message, removes the PID handle, and returns success; the embedded
operation is a total function, so nothing is raised. -/
theorem C3_stop_already_stopped (manager_id : String) (fs : FileSys) (alive : Int → Bool)
    (behave : Int → StopBehavior) (component_id : String)
    (hdead : read_pid_file fs (get_pid_file_path PID_DIR component_id) = none ∨
      ∃ p, read_pid_file fs (get_pid_file_path PID_DIR component_id) = some p ∧
           (p = 0 ∨ alive p = false))
    (ht : fs.canTouch (get_pid_file_path PID_DIR component_id) = true) :
    (stop_component manager_id fs alive behave component_id).success = true ∧
    (stop_component manager_id fs alive behave component_id).events =
      [already_stopped_event component_id
        (read_pid_file fs (get_pid_file_path PID_DIR component_id)) manager_id] ∧
    ((stop_component manager_id fs alive behave component_id).fs).read
      (get_pid_file_path PID_DIR component_id) = none := by
  rcases hdead with hp | ⟨p, hp, hpa⟩
  · rw [stop_component_eq_none hp, hp]
    exact ⟨rfl, rfl, remove_read_none ht⟩
  · have hcond : (decide (p ≠ 0) && alive p) = false := by
      rcases hpa with h0 | hal
      · simp [h0]
      · simp [hal]
    rw [stop_component_eq_some hp, if_neg (by rw [hcond]; exact Bool.false_ne_true), hp]
    exact ⟨rfl, rfl, remove_read_none ht⟩

/-- Witness for C3: a stale handle pointing to dead pid 99 is cleaned
up with an already-stopped success row. -/
theorem C3_witness :
    (stop_component "nano_manager" ⟨[(get_pid_file_path PID_DIR "w", "99")], []⟩
        (fun _ => false) (fun _ => StopBehavior.alreadyDead) "w").success = true ∧
    (stop_component "nano_manager" ⟨[(get_pid_file_path PID_DIR "w", "99")], []⟩
        (fun _ => false) (fun _ => StopBehavior.alreadyDead) "w").events
      = [already_stopped_event "w" (some 99) "nano_manager"] ∧
    ((stop_component "nano_manager" ⟨[(get_pid_file_path PID_DIR "w", "99")], []⟩
        (fun _ => false) (fun _ => StopBehavior.alreadyDead) "w").fs).read
      (get_pid_file_path PID_DIR "w") = none := by
  have h := C3_stop_already_stopped "nano_manager"
    ⟨[(get_pid_file_path PID_DIR "w", "99")], []⟩ (fun _ => false)
    (fun _ => StopBehavior.alreadyDead) "w"
    (Or.inr ⟨99, by decide, Or.inr rfl⟩) (by decide)
  refine ⟨h.1, ?_, h.2.2⟩
  have h2 := h.2.1
  rw [show read_pid_file ⟨[(get_pid_file_path PID_DIR "w", "99")], []⟩
        (get_pid_file_path PID_DIR "w") = some 99 from by decide] at h2
  exact h2

/-! ## Claim C6 -/

/-- C6: the registry query of ensure_autorun_components_active returns
only rows whose manager_affinity is the querying supervisor (restricted
to desired_state active); for two distinct supervisor identities the
query for one never returns a row whose affinity is the other. -/
theorem C6_registry_partition (registry : List AutorunRow) (a b : String) (hab : a ≠ b) :
    ∀ r ∈ select_components registry a,
      r.manager_affinity = a ∧ r.desired_state = "active" ∧ r.manager_affinity ≠ b := by
  intro r hr
  unfold select_components at hr
  rw [List.mem_filter] at hr
  obtain ⟨hmem, hcond⟩ := hr
  rw [Bool.and_eq_true, decide_eq_true_eq, decide_eq_true_eq] at hcond
  exact ⟨hcond.1, hcond.2, by rw [hcond.1]; exact hab⟩

/-- Witness for C6: a two-supervisor registry; the row selected for
nano_manager is never owned by daemon_manager. -/
theorem C6_witness :
    (⟨"n1", "nano_instance.py", PyArgs.absent, "BOOT", "nano_manager", "active"⟩ :
        AutorunRow).manager_affinity = "nano_manager" ∧
    (⟨"n1", "nano_instance.py", PyArgs.absent, "BOOT", "nano_manager", "active"⟩ :
        AutorunRow).desired_state = "active" ∧
    (⟨"n1", "nano_instance.py", PyArgs.absent, "BOOT", "nano_manager", "active"⟩ :
        AutorunRow).manager_affinity ≠ "daemon_manager" :=
  C6_registry_partition
    [⟨"n1", "nano_instance.py", PyArgs.absent, "BOOT", "nano_manager", "active"⟩,
     ⟨"d1", "temp_main_daemon.py", PyArgs.absent, "BOOT", "daemon_manager", "active"⟩]
    "nano_manager" "daemon_manager" (by decide)
    ⟨"n1", "nano_instance.py", PyArgs.absent, "BOOT", "nano_manager", "active"⟩
    (by decide)

/-! ## Claim C5 -/

/-- C5: log_db_access inserts exactly one row into the data-access log
when storage is healthy, and on a storage failure leaves the log
unchanged, reports the error on the console, and returns normally (it
is a total function, so the caller is never aborted). -/
theorem C5_log_db_access_contract (db : AccessDb) (cid t a : String) :
    (db.storageFailing = false →
      (log_db_access db cid t a).1.rows = db.rows ++ [⟨cid, t, a⟩] ∧
      (log_db_access db cid t a).2.1 = true ∧
      (log_db_access db cid t a).2.2 = []) ∧
    (db.storageFailing = true →
      (log_db_access db cid t a).1 = db ∧
      (log_db_access db cid t a).2.1 = false ∧
      (log_db_access db cid t a).2.2 ≠ []) := by
  constructor
  · intro h
    unfold log_db_access
    rw [if_neg (by rw [h]; exact Bool.false_ne_true)]
    exact ⟨rfl, rfl, rfl⟩
  · intro h
    unfold log_db_access
    rw [if_pos h]
    exact ⟨rfl, rfl, by simp⟩

/-- Witness for C5: one successful insertion and one swallowed storage
failure, at the access row nano_manager writes for its registry read. -/
theorem C5_witness :
    (log_db_access ⟨[], false⟩ "nano_manager" "autorun_components" "READ").1.rows
      = [⟨"nano_manager", "autorun_components", "READ"⟩] ∧
    (log_db_access ⟨[], true⟩ "nano_manager" "autorun_components" "READ").1
      = ⟨[], true⟩ ∧
    (log_db_access ⟨[], true⟩ "nano_manager" "autorun_components" "READ").2.2 ≠ [] :=
  ⟨(C5_log_db_access_contract ⟨[], false⟩ "nano_manager" "autorun_components" "READ").1
      rfl |>.1,
   ((C5_log_db_access_contract ⟨[], true⟩ "nano_manager" "autorun_components" "READ").2
      rfl).1,
   ((C5_log_db_access_contract ⟨[], true⟩ "nano_manager" "autorun_components" "READ").2
      rfl).2.2⟩

/-! ## Claim C4 -/

/-- C4 (divergence witness): the Popen call made by start_component for
a concrete worker passes no detachment flag at all — newSession and
newProcessGroup are both false — although its stdout and stderr are
per-component append-mode files; the launch helper modelled from the
spec (and exercised by the repository test suite) sets the POSIX
new-session flag and the Windows new-process-group flag. -/
theorem C4_start_component_not_detached :
    (start_component_popen_config "tempd" (PROJECT_DIR ++ "/temp_main_daemon.py")
        [] "BOOT").newSession = false ∧
    (start_component_popen_config "tempd" (PROJECT_DIR ++ "/temp_main_daemon.py")
        [] "BOOT").newProcessGroup = false ∧
    (start_component_popen_config "tempd" (PROJECT_DIR ++ "/temp_main_daemon.py")
        [] "BOOT").stdoutPath = LOGS_DIR ++ "/tempd.log" ∧
    (start_component_popen_config "tempd" (PROJECT_DIR ++ "/temp_main_daemon.py")
        [] "BOOT").stdoutMode = "a" ∧
    (start_component_popen_config "tempd" (PROJECT_DIR ++ "/temp_main_daemon.py")
        [] "BOOT").stderrMode = "a" ∧
    (launch_subprocess_config OsKind.posix
        [VENV_PYTHON_PATH, PROJECT_DIR ++ "/temp_main_daemon.py", "--run_type", "BOOT"]
        PROJECT_DIR (LOGS_DIR ++ "/tempd.log") (LOGS_DIR ++ "/tempd.err")).newSession
      = true ∧
    (launch_subprocess_config OsKind.windows
        [VENV_PYTHON_PATH, PROJECT_DIR ++ "/temp_main_daemon.py", "--run_type", "BOOT"]
        PROJECT_DIR (LOGS_DIR ++ "/tempd.log") (LOGS_DIR ++ "/tempd.err")).newProcessGroup
      = true := by
  refine ⟨rfl, rfl, rfl, rfl, rfl, by decide, by decide⟩

/-! ## Helper lemmas: the boot monitor -/

theorem monitor_one_tracked_script (cfg : String → ManagerCfg) (due : String → Bool)
    (relaunch : String → Option Int) (m : TrackedManager) :
    ∀ t ∈ (monitor_one cfg due relaunch m).tracked, t.script = m.script := by
  intro t ht
  unfold monitor_one at ht
  by_cases h1 : (!(due m.script)) = true
  · rw [if_pos h1] at ht
    simp only [List.mem_singleton] at ht
    rw [ht]
  · rw [if_neg h1] at ht
    by_cases h2 : check_manager_health m = true
    · rw [if_pos h2] at ht
      simp only [List.mem_singleton] at ht
      rw [ht]
    · rw [if_neg h2] at ht
      by_cases h3 : (cfg m.script).critical = true
      · rw [if_pos h3] at ht
        cases hre : relaunch m.script with
        | some p =>
          rw [hre] at ht
          simp only [List.mem_singleton] at ht
          rw [ht]
        | none =>
          rw [hre] at ht
          cases ht
      · rw [if_neg h3] at ht
        cases ht

theorem monitor_one_launch_script (cfg : String → ManagerCfg) (due : String → Bool)
    (relaunch : String → Option Int) (m : TrackedManager) :
    ∀ s ∈ (monitor_one cfg due relaunch m).launches, s = m.script := by
  intro s hs
  unfold monitor_one at hs
  by_cases h1 : (!(due m.script)) = true
  · rw [if_pos h1] at hs
    cases hs
  · rw [if_neg h1] at hs
    by_cases h2 : check_manager_health m = true
    · rw [if_pos h2] at hs
      cases hs
    · rw [if_neg h2] at hs
      by_cases h3 : (cfg m.script).critical = true
      · rw [if_pos h3] at hs
        cases hre : relaunch m.script with
        | some p =>
          rw [hre] at hs
          simp only [List.mem_singleton] at hs
          exact hs
        | none =>
          rw [hre] at hs
          simp only [List.mem_singleton] at hs
          exact hs
      · rw [if_neg h3] at hs
        cases hs

theorem monitor_one_crash_relaunched {cfg : String → ManagerCfg} {due : String → Bool}
    {relaunch : String → Option Int} {m : TrackedManager} {p : Int}
    (hdue : due m.script = true) (hex : m.exited = true)
    (hcrit : (cfg m.script).critical = true) (hre : relaunch m.script = some p) :
    monitor_one cfg due relaunch m =
      ⟨[⟨m.script, p, false⟩],
       [manager_crashed_event m.script m.pid, manager_started_event m.script p],
       ["[BOOT] " ++ (cfg m.script).name ++ " appears to have crashed!",
        "[BOOT] " ++ (cfg m.script).name ++ " restarted successfully."],
       [m.script]⟩ := by
  unfold monitor_one
  rw [if_neg (by rw [hdue]; decide)]
  rw [if_neg (by unfold check_manager_health; rw [hex]; decide)]
  rw [if_pos hcrit, hre]

theorem monitor_one_crash_failed {cfg : String → ManagerCfg} {due : String → Bool}
    {relaunch : String → Option Int} {m : TrackedManager}
    (hdue : due m.script = true) (hex : m.exited = true)
    (hcrit : (cfg m.script).critical = true) (hre : relaunch m.script = none) :
    monitor_one cfg due relaunch m =
      ⟨[], [manager_crashed_event m.script m.pid],
       ["[BOOT] " ++ (cfg m.script).name ++ " appears to have crashed!",
        "[BOOT] Failed to restart " ++ (cfg m.script).name ++ ". System may be unstable."],
       [m.script]⟩ := by
  unfold monitor_one
  rw [if_neg (by rw [hdue]; decide)]
  rw [if_neg (by unfold check_manager_health; rw [hex]; decide)]
  rw [if_pos hcrit, hre]

theorem monitor_one_crash_noncritical {cfg : String → ManagerCfg} {due : String → Bool}
    {relaunch : String → Option Int} {m : TrackedManager}
    (hdue : due m.script = true) (hex : m.exited = true)
    (hcrit : (cfg m.script).critical = false) :
    monitor_one cfg due relaunch m =
      ⟨[], [],
       ["[BOOT] " ++ (cfg m.script).name ++ " appears to have crashed!",
        "[BOOT] " ++ (cfg m.script).name ++ " is non-critical. Not restarting."],
       []⟩ := by
  unfold monitor_one
  rw [if_neg (by rw [hdue]; decide)]
  rw [if_neg (by unfold check_manager_health; rw [hex]; decide)]
  rw [if_neg (by rw [hcrit]; exact Bool.false_ne_true)]

theorem monitor_one_crash_critical_facts {cfg : String → ManagerCfg} {due : String → Bool}
    {relaunch : String → Option Int} {m : TrackedManager}
    (hdue : due m.script = true) (hex : m.exited = true)
    (hcrit : (cfg m.script).critical = true) :
    manager_crashed_event m.script m.pid ∈ (monitor_one cfg due relaunch m).events ∧
    (monitor_one cfg due relaunch m).launches = [m.script] ∧
    (∀ p, relaunch m.script = some p →
      (⟨m.script, p, false⟩ : TrackedManager) ∈ (monitor_one cfg due relaunch m).tracked) := by
  cases hre : relaunch m.script with
  | some p =>
    rw [monitor_one_crash_relaunched hdue hex hcrit hre]
    refine ⟨List.mem_cons_self _ _, rfl, ?_⟩
    intro q hq
    obtain rfl : p = q := Option.some.inj hq
    exact List.mem_singleton.mpr rfl
  | none =>
    rw [monitor_one_crash_failed hdue hex hcrit hre]
    refine ⟨List.mem_cons_self _ _, rfl, ?_⟩
    intro q hq
    cases hq

theorem monitor_step_no_script (cfg : String → ManagerCfg) (due : String → Bool)
    (relaunch : String → Option Int) (s : String) :
    ∀ (tracked : List TrackedManager), (∀ t ∈ tracked, t.script ≠ s) →
      (monitor_step cfg due relaunch tracked).launches.count s = 0 ∧
      ∀ t ∈ (monitor_step cfg due relaunch tracked).tracked, t.script ≠ s := by
  intro tracked
  induction tracked with
  | nil =>
    intro h
    exact ⟨rfl, fun t ht => absurd ht (List.not_mem_nil t)⟩
  | cons m rest ih =>
    intro h
    have hm : m.script ≠ s := h m (List.mem_cons_self m rest)
    obtain ⟨ihc, iht⟩ := ih (fun t ht => h t (List.mem_cons_of_mem m ht))
    have hone : ((monitor_one cfg due relaunch m).launches).count s = 0 := by
      rw [List.count_eq_zero]
      intro hs
      exact hm ((monitor_one_launch_script cfg due relaunch m s hs) ▸ rfl)
    constructor
    · show ((monitor_one cfg due relaunch m).launches
          ++ (monitor_step cfg due relaunch rest).launches).count s = 0
      rw [List.count_append, hone, ihc]
    · intro t ht
      rcases List.mem_append.mp ht with ht | ht
      · rw [monitor_one_tracked_script cfg due relaunch m t ht]
        exact hm
      · exact iht t ht

theorem monitor_step_cons (cfg : String → ManagerCfg) (due : String → Bool)
    (relaunch : String → Option Int) (m : TrackedManager) (rest : List TrackedManager) :
    monitor_step cfg due relaunch (m :: rest)
      = (monitor_one cfg due relaunch m).append (monitor_step cfg due relaunch rest) := rfl

/-! ## Claim C9 -/

/-- C9: in a health-check iteration of the boot orchestrator, a
tracked supervisor that is due for a check and observed to have exited
is handled by its criticality flag: critical — a MANAGER_CRASHED row
is logged and launch_manager is invoked exactly once for that crash
(re-tracking the supervisor when the relaunch yields a new process);
non-critical — it is removed from the tracked set, a not-restarting
line is logged, no launch is invoked, and (last conjunct) once a
script is absent from the tracked set no later iteration ever invokes
a launch for it or re-tracks it, so it is never relaunched
automatically. -/
theorem C9_monitor_crash_policy (cfg : String → ManagerCfg) (due : String → Bool)
    (relaunch : String → Option Int) (tracked : List TrackedManager) (m : TrackedManager)
    (hmem : m ∈ tracked) (hnodup : (tracked.map TrackedManager.script).Nodup)
    (hdue : due m.script = true) (hexited : m.exited = true) :
    ((cfg m.script).critical = true →
      manager_crashed_event m.script m.pid ∈ (monitor_step cfg due relaunch tracked).events ∧
      (monitor_step cfg due relaunch tracked).launches.count m.script = 1 ∧
      (∀ p, relaunch m.script = some p →
        (⟨m.script, p, false⟩ : TrackedManager)
          ∈ (monitor_step cfg due relaunch tracked).tracked)) ∧
    ((cfg m.script).critical = false →
      (∀ t ∈ (monitor_step cfg due relaunch tracked).tracked, t.script ≠ m.script) ∧
      ("[BOOT] " ++ (cfg m.script).name ++ " is non-critical. Not restarting.")
        ∈ (monitor_step cfg due relaunch tracked).console ∧
      (monitor_step cfg due relaunch tracked).launches.count m.script = 0) ∧
    (∀ tracked2 : List TrackedManager, (∀ t ∈ tracked2, t.script ≠ m.script) →
      (monitor_step cfg due relaunch tracked2).launches.count m.script = 0 ∧
      ∀ t ∈ (monitor_step cfg due relaunch tracked2).tracked, t.script ≠ m.script) := by
  refine ⟨?_, ?_, fun tracked2 h2 =>
    monitor_step_no_script cfg due relaunch m.script tracked2 h2⟩
  all_goals induction tracked with
  | nil => cases hmem
  | cons m2 rest ih => ?_
  case _ =>
    rw [List.map_cons, List.nodup_cons] at hnodup
    by_cases hm2 : m2 = m
    · subst hm2
      intro hcrit
      have hrest_ne : ∀ t ∈ rest, t.script ≠ m2.script := by
        intro t ht he
        exact hnodup.1 (he ▸ List.mem_map_of_mem TrackedManager.script ht)
      obtain ⟨htail_count, htail_tracked⟩ :=
        monitor_step_no_script cfg due relaunch m2.script rest hrest_ne
      obtain ⟨hev, hla, htr⟩ := monitor_one_crash_critical_facts hdue hexited hcrit
      refine ⟨List.mem_append.mpr (Or.inl hev), ?_, ?_⟩
      · show ((monitor_one cfg due relaunch m2).launches
            ++ (monitor_step cfg due relaunch rest).launches).count m2.script = 1
        rw [List.count_append, hla, htail_count]
        simp
      · intro p hp
        exact List.mem_append.mpr (Or.inl (htr p hp))
    · have hmem2 : m ∈ rest := by
        rcases List.mem_cons.mp hmem with he | hmem2
        · exact absurd he.symm hm2
        · exact hmem2
      have hscript_ne : m2.script ≠ m.script := by
        intro he
        exact hnodup.1 (he ▸ List.mem_map_of_mem TrackedManager.script hmem2)
      have hone_count : ((monitor_one cfg due relaunch m2).launches).count m.script = 0 := by
        rw [List.count_eq_zero]
        intro hs
        exact hscript_ne (monitor_one_launch_script cfg due relaunch m2 m.script hs).symm
      intro hcrit
      obtain ⟨ih1, ih2, ih3⟩ := ih hmem2 hnodup.2 hcrit
      refine ⟨List.mem_append.mpr (Or.inr ih1), ?_, ?_⟩
      · show ((monitor_one cfg due relaunch m2).launches
            ++ (monitor_step cfg due relaunch rest).launches).count m.script = 1
        rw [List.count_append, hone_count, ih2]
      · intro p hp
        exact List.mem_append.mpr (Or.inr (ih3 p hp))
  case _ =>
    rw [List.map_cons, List.nodup_cons] at hnodup
    by_cases hm2 : m2 = m
    · subst hm2
      intro hcrit
      have hrest_ne : ∀ t ∈ rest, t.script ≠ m2.script := by
        intro t ht he
        exact hnodup.1 (he ▸ List.mem_map_of_mem TrackedManager.script ht)
      obtain ⟨htail_count, htail_tracked⟩ :=
        monitor_step_no_script cfg due relaunch m2.script rest hrest_ne
      rw [monitor_step_cons, monitor_one_crash_noncritical hdue hexited hcrit]
      refine ⟨?_, ?_, ?_⟩
      · intro t ht
        rcases List.mem_append.mp ht with ht | ht
        · cases ht
        · exact htail_tracked t ht
      · exact List.mem_append.mpr (Or.inl (by simp))
      · show (([] : List String)
            ++ (monitor_step cfg due relaunch rest).launches).count m2.script = 0
        rw [List.nil_append, htail_count]
    · have hmem2 : m ∈ rest := by
        rcases List.mem_cons.mp hmem with he | hmem2
        · exact absurd he.symm hm2
        · exact hmem2
      have hscript_ne : m2.script ≠ m.script := by
        intro he
        exact hnodup.1 (he ▸ List.mem_map_of_mem TrackedManager.script hmem2)
      have hone_count : ((monitor_one cfg due relaunch m2).launches).count m.script = 0 := by
        rw [List.count_eq_zero]
        intro hs
        exact hscript_ne (monitor_one_launch_script cfg due relaunch m2 m.script hs).symm
      intro hcrit
      obtain ⟨ih1, ih2, ih3⟩ := ih hmem2 hnodup.2 hcrit
      refine ⟨?_, List.mem_append.mpr (Or.inr ih2), ?_⟩
      · intro t ht
        rcases List.mem_append.mp ht with ht | ht
        · rw [monitor_one_tracked_script cfg due relaunch m2 t ht]
          exact hscript_ne
        · exact ih1 t ht
      · show ((monitor_one cfg due relaunch m2).launches
            ++ (monitor_step cfg due relaunch rest).launches).count m.script = 0
        rw [List.count_append, hone_count, ih3]

/-- Witness for C9: two tracked supervisors that both exited; the
critical one (a.py) is logged as crashed and relaunched once, the
non-critical one (b.py) is dropped, logged, and not relaunched. -/
theorem C9_witness :
    manager_crashed_event "a.py" 10 ∈
      (monitor_step (fun s => ⟨s, decide (s = "a.py")⟩) (fun _ => true) (fun _ => some 77)
        [⟨"a.py", 10, true⟩, ⟨"b.py", 11, true⟩]).events ∧
    ((monitor_step (fun s => ⟨s, decide (s = "a.py")⟩) (fun _ => true) (fun _ => some 77)
        [⟨"a.py", 10, true⟩, ⟨"b.py", 11, true⟩]).launches).count "a.py" = 1 ∧
    ("[BOOT] b.py is non-critical. Not restarting.") ∈
      (monitor_step (fun s => ⟨s, decide (s = "a.py")⟩) (fun _ => true) (fun _ => some 77)
        [⟨"a.py", 10, true⟩, ⟨"b.py", 11, true⟩]).console ∧
    ((monitor_step (fun s => ⟨s, decide (s = "a.py")⟩) (fun _ => true) (fun _ => some 77)
        [⟨"a.py", 10, true⟩, ⟨"b.py", 11, true⟩]).launches).count "b.py" = 0 := by
  have h1 := C9_monitor_crash_policy (fun s => ⟨s, decide (s = "a.py")⟩) (fun _ => true)
    (fun _ => some 77) [⟨"a.py", 10, true⟩, ⟨"b.py", 11, true⟩] ⟨"a.py", 10, true⟩
    (by decide) (by decide) rfl rfl
  have h2 := C9_monitor_crash_policy (fun s => ⟨s, decide (s = "a.py")⟩) (fun _ => true)
    (fun _ => some 77) [⟨"a.py", 10, true⟩, ⟨"b.py", 11, true⟩] ⟨"b.py", 11, true⟩
    (by decide) (by decide) rfl rfl
  obtain ⟨hev, hcount, _⟩ := h1.1 (by decide)
  obtain ⟨_, hconsole, hzero⟩ := h2.2.1 (by decide)
  exact ⟨hev, hcount, hconsole, hzero⟩

/-! ## Helper lemmas: the reconciliation pass -/

theorem read_pid_file_congr {fs2 fs : FileSys} {p : String}
    (h1 : fs2.read p = fs.read p) (h2 : fs2.ioFail = fs.ioFail) :
    read_pid_file fs2 p = read_pid_file fs p := by
  unfold read_pid_file
  rw [h1, canTouch_of_ioFail_eq h2]

theorem pid_live_congr {fs2 fs : FileSys} {alive : Int → Bool} {cid : String}
    (h1 : fs2.read (get_pid_file_path PID_DIR cid) = fs.read (get_pid_file_path PID_DIR cid))
    (h2 : fs2.ioFail = fs.ioFail) :
    pid_live fs2 alive cid = pid_live fs alive cid := by
  unfold pid_live
  rw [read_pid_file_congr h1 h2]

theorem pathExists_congr {fs2 fs : FileSys} {p : String} (h : fs2.read p = fs.read p) :
    fs2.pathExists p = fs.pathExists p := by
  unfold FileSys.pathExists
  rw [h]

theorem parse_ok_of_not_nonObj (mid cid : String) {a : PyArgs}
    (h : ∀ raw, a ≠ PyArgs.nonObj raw) :
    ∃ args warns, parse_launch_args mid cid a = Except.ok (args, warns) := by
  cases a with
  | absent => exact ⟨[], [], rfl⟩
  | emptyObj => exact ⟨[], [], rfl⟩
  | obj pairs =>
    exact ⟨(pairs.map (fun kv : String × String => [kv.1, kv.2])).flatten, [], rfl⟩
  | nonObj raw => exact absurd rfl (h raw)
  | malformed raw =>
    exact ⟨[], ["[" ++ mid ++ "] WARNING: Could not parse launch_args_json for "
                ++ cid ++ ": " ++ raw], rfl⟩

theorem start_component_eq_running {fs : FileSys} {alive : Int → Bool}
    {spawn : String → Option Int} {cid base : String} {args : List String} {rt : String}
    (h1 : pid_live fs alive cid = true) :
    start_component fs alive spawn cid base args rt = ⟨fs, [], [], true⟩ := by
  unfold start_component
  rw [if_pos h1]

theorem start_component_eq_missing {fs : FileSys} {alive : Int → Bool}
    {spawn : String → Option Int} {cid base : String} {args : List String} {rt : String}
    (h1 : pid_live fs alive cid = false)
    (h2 : fs.pathExists (PROJECT_DIR ++ "/" ++ base) = false) :
    start_component fs alive spawn cid base args rt =
      ⟨fs, [], ["[nano_manager] ERROR: Script " ++ base ++ " for " ++ cid
                ++ " not found. Skipping."], false⟩ := by
  unfold start_component
  rw [if_neg (by rw [h1]; exact Bool.false_ne_true)]
  rw [if_pos (by rw [h2]; decide)]

theorem start_component_eq_spawn_fail {fs : FileSys} {alive : Int → Bool}
    {spawn : String → Option Int} {cid base : String} {args : List String} {rt : String}
    (h1 : pid_live fs alive cid = false)
    (h2 : fs.pathExists (PROJECT_DIR ++ "/" ++ base) = true)
    (hs : spawn cid = none) :
    start_component fs alive spawn cid base args rt =
      ⟨fs, [start_attempt_event cid base rt],
       ["[nano_manager] Error starting component " ++ cid], false⟩ := by
  unfold start_component
  rw [if_neg (by rw [h1]; exact Bool.false_ne_true)]
  rw [if_neg (by rw [h2]; decide)]
  rw [hs]

theorem start_component_eq_spawn_ok {fs : FileSys} {alive : Int → Bool}
    {spawn : String → Option Int} {cid base : String} {args : List String} {rt : String}
    {p : Int} (h1 : pid_live fs alive cid = false)
    (h2 : fs.pathExists (PROJECT_DIR ++ "/" ++ base) = true)
    (hs : spawn cid = some p)
    (h3 : fs.canTouch (get_pid_file_path PID_DIR cid) = true) :
    start_component fs alive spawn cid base args rt =
      ⟨fs.write (get_pid_file_path PID_DIR cid) (pyStrOfInt p),
       [start_attempt_event cid base rt],
       ["[nano_manager] Component " ++ cid ++ " started with PID " ++ pyStrOfInt p],
       true⟩ := by
  unfold start_component
  rw [if_neg (by rw [h1]; exact Bool.false_ne_true)]
  rw [if_neg (by rw [h2]; decide)]
  rw [hs]
  show (if fs.canTouch (get_pid_file_path PID_DIR cid) = true then _ else _) = _
  rw [if_pos h3]

theorem start_component_eq_write_fail {fs : FileSys} {alive : Int → Bool}
    {spawn : String → Option Int} {cid base : String} {args : List String} {rt : String}
    {p : Int} (h1 : pid_live fs alive cid = false)
    (h2 : fs.pathExists (PROJECT_DIR ++ "/" ++ base) = true)
    (hs : spawn cid = some p)
    (h3 : fs.canTouch (get_pid_file_path PID_DIR cid) = false) :
    start_component fs alive spawn cid base args rt =
      ⟨fs, [start_attempt_event cid base rt],
       ["[nano_manager] Error starting component " ++ cid], false⟩ := by
  unfold start_component
  rw [if_neg (by rw [h1]; exact Bool.false_ne_true)]
  rw [if_neg (by rw [h2]; decide)]
  rw [hs]
  show (if fs.canTouch (get_pid_file_path PID_DIR cid) = true then _ else _) = _
  rw [if_neg (by rw [h3]; exact Bool.false_ne_true)]

theorem start_component_events_attempt (fs : FileSys) (alive : Int → Bool)
    (spawn : String → Option Int) (cid base : String) (args : List String) (rt : String) :
    ∀ e ∈ (start_component fs alive spawn cid base args rt).events,
      e = start_attempt_event cid base rt := by
  by_cases h1 : pid_live fs alive cid = true
  · rw [start_component_eq_running h1]
    intro e he
    cases he
  · rw [Bool.not_eq_true] at h1
    by_cases h2 : fs.pathExists (PROJECT_DIR ++ "/" ++ base) = true
    · cases hs : spawn cid with
      | none =>
        rw [start_component_eq_spawn_fail h1 h2 hs]
        intro e he
        simp only [List.mem_singleton] at he
        exact he
      | some p =>
        by_cases h3 : fs.canTouch (get_pid_file_path PID_DIR cid) = true
        · rw [start_component_eq_spawn_ok h1 h2 hs h3]
          intro e he
          simp only [List.mem_singleton] at he
          exact he
        · rw [Bool.not_eq_true] at h3
          rw [start_component_eq_write_fail h1 h2 hs h3]
          intro e he
          simp only [List.mem_singleton] at he
          exact he
    · rw [Bool.not_eq_true] at h2
      rw [start_component_eq_missing h1 h2]
      intro e he
      cases he

theorem start_component_fs_frame (fs : FileSys) (alive : Int → Bool)
    (spawn : String → Option Int) (cid base : String) (args : List String) (rt : String)
    {q : String} (hq : q ≠ get_pid_file_path PID_DIR cid) :
    (start_component fs alive spawn cid base args rt).fs.read q = fs.read q ∧
    (start_component fs alive spawn cid base args rt).fs.ioFail = fs.ioFail := by
  by_cases h1 : pid_live fs alive cid = true
  · rw [start_component_eq_running h1]
    exact ⟨rfl, rfl⟩
  · rw [Bool.not_eq_true] at h1
    by_cases h2 : fs.pathExists (PROJECT_DIR ++ "/" ++ base) = true
    · cases hs : spawn cid with
      | none =>
        rw [start_component_eq_spawn_fail h1 h2 hs]
        exact ⟨rfl, rfl⟩
      | some p =>
        by_cases h3 : fs.canTouch (get_pid_file_path PID_DIR cid) = true
        · rw [start_component_eq_spawn_ok h1 h2 hs h3]
          exact ⟨read_write_other fs _ _ q hq, rfl⟩
        · rw [Bool.not_eq_true] at h3
          rw [start_component_eq_write_fail h1 h2 hs h3]
          exact ⟨rfl, rfl⟩
    · rw [Bool.not_eq_true] at h2
      rw [start_component_eq_missing h1 h2]
      exact ⟨rfl, rfl⟩

theorem process_row_visited (alive : Int → Bool) (spawn : String → Option Int)
    (st : PassState) (r : AutorunRow) :
    (process_row alive spawn st r).1.visited = st.visited ++ [r.component_id] := by
  unfold process_row
  by_cases h1 : pid_live st.fs alive r.component_id = true
  · rw [if_pos h1]
  · rw [if_neg h1]
    cases hpa : parse_launch_args "nano_manager" r.component_id r.launch_args_json with
    | error e => rfl
    | ok aw =>
      obtain ⟨args, warns⟩ := aw
      rfl

theorem process_row_events (alive : Int → Bool) (spawn : String → Option Int)
    (st : PassState) (r : AutorunRow) :
    ∃ evs, (process_row alive spawn st r).1.events = st.events ++ evs ∧
      ∀ e ∈ evs, e = start_attempt_event r.component_id r.base_script_name
        r.run_type_on_boot := by
  unfold process_row
  by_cases h1 : pid_live st.fs alive r.component_id = true
  · rw [if_pos h1]
    exact ⟨[], by simp, by intro e he; cases he⟩
  · rw [if_neg h1]
    cases hpa : parse_launch_args "nano_manager" r.component_id r.launch_args_json with
    | error e => exact ⟨[], by simp, by intro e he; cases he⟩
    | ok aw =>
      obtain ⟨args, warns⟩ := aw
      exact ⟨(start_component st.fs alive spawn r.component_id r.base_script_name args
                r.run_type_on_boot).events, rfl,
             start_component_events_attempt st.fs alive spawn r.component_id
               r.base_script_name args r.run_type_on_boot⟩

theorem process_row_fs_frame (alive : Int → Bool) (spawn : String → Option Int)
    (st : PassState) (r : AutorunRow) {q : String}
    (hq : q ≠ get_pid_file_path PID_DIR r.component_id) :
    (process_row alive spawn st r).1.fs.read q = st.fs.read q ∧
    (process_row alive spawn st r).1.fs.ioFail = st.fs.ioFail := by
  unfold process_row
  by_cases h1 : pid_live st.fs alive r.component_id = true
  · rw [if_pos h1]
    exact ⟨rfl, rfl⟩
  · rw [if_neg h1]
    cases hpa : parse_launch_args "nano_manager" r.component_id r.launch_args_json with
    | error e => exact ⟨rfl, rfl⟩
    | ok aw =>
      obtain ⟨args, warns⟩ := aw
      exact start_component_fs_frame st.fs alive spawn r.component_id r.base_script_name
        args r.run_type_on_boot hq

theorem process_row_completes (alive : Int → Bool) (spawn : String → Option Int)
    (st : PassState) (r : AutorunRow)
    (h : ∀ raw, r.launch_args_json ≠ PyArgs.nonObj raw) :
    (process_row alive spawn st r).2 = none := by
  unfold process_row
  by_cases h1 : pid_live st.fs alive r.component_id = true
  · rw [if_pos h1]
  · rw [if_neg h1]
    obtain ⟨args, warns, hok⟩ :=
      parse_ok_of_not_nonObj "nano_manager" r.component_id h
    rw [hok]

theorem run_rows_cons (alive : Int → Bool) (spawn : String → Option Int)
    (r : AutorunRow) (rest : List AutorunRow) (st : PassState) :
    run_rows alive spawn (r :: rest) st =
      match process_row alive spawn st r with
      | (st2, none) => run_rows alive spawn rest st2
      | (st2, some e) => (st2, some e) := rfl

theorem run_rows_cons_none {alive : Int → Bool} {spawn : String → Option Int}
    {r : AutorunRow} {st : PassState} (rest : List AutorunRow)
    (h : (process_row alive spawn st r).2 = none) :
    run_rows alive spawn (r :: rest) st
      = run_rows alive spawn rest (process_row alive spawn st r).1 := by
  rw [run_rows_cons]
  rcases hpr : process_row alive spawn st r with ⟨st2, e⟩
  rw [hpr] at h
  simp only at h
  subst h
  rfl

theorem run_rows_append (alive : Int → Bool) (spawn : String → Option Int) :
    ∀ (xs ys : List AutorunRow) (st : PassState),
    run_rows alive spawn (xs ++ ys) st =
      match run_rows alive spawn xs st with
      | (st1, none) => run_rows alive spawn ys st1
      | (st1, some e) => (st1, some e) := by
  intro xs
  induction xs with
  | nil => intro ys st; rfl
  | cons r rest ih =>
    intro ys st
    rw [List.cons_append, run_rows_cons, run_rows_cons]
    rcases hpr : process_row alive spawn st r with ⟨st2, e⟩
    cases e with
    | none => exact ih ys st2
    | some e2 => rfl

theorem run_rows_frame (alive : Int → Bool) (spawn : String → Option Int) (cid q : String) :
    ∀ (rows : List AutorunRow) (st : PassState),
      (∀ r ∈ rows, r.component_id ≠ cid) →
      (∀ r ∈ rows, q ≠ get_pid_file_path PID_DIR r.component_id) →
      (run_rows alive spawn rows st).1.fs.read q = st.fs.read q ∧
      (run_rows alive spawn rows st).1.fs.ioFail = st.fs.ioFail ∧
      ((run_rows alive spawn rows st).1.events).filter
          (fun e => decide (e.component_id = cid))
        = st.events.filter (fun e => decide (e.component_id = cid)) := by
  intro rows
  induction rows with
  | nil => intro st h1 h2; exact ⟨rfl, rfl, rfl⟩
  | cons r rest ih =>
    intro st h1 h2
    have hrid : r.component_id ≠ cid := h1 r (List.mem_cons_self r rest)
    have hrq : q ≠ get_pid_file_path PID_DIR r.component_id :=
      h2 r (List.mem_cons_self r rest)
    obtain ⟨hfr, hfi⟩ := process_row_fs_frame alive spawn st r hrq
    obtain ⟨evs, hev, hall⟩ := process_row_events alive spawn st r
    have hfilter : ((process_row alive spawn st r).1.events).filter
        (fun e => decide (e.component_id = cid))
        = st.events.filter (fun e => decide (e.component_id = cid)) := by
      rw [hev, List.filter_append]
      have : evs.filter (fun e => decide (e.component_id = cid)) = [] := by
        rw [List.filter_eq_nil_iff]
        intro e he
        rw [hall e he]
        simp only [start_attempt_event, decide_eq_true_eq]
        exact hrid
      rw [this, List.append_nil]
    rw [run_rows_cons]
    rcases hpr : process_row alive spawn st r with ⟨st2, e⟩
    rw [hpr] at hfr hfi hfilter
    cases e with
    | some e2 => exact ⟨hfr, hfi, hfilter⟩
    | none =>
      obtain ⟨ih1, ih2, ih3⟩ := ih st2 (fun x hx => h1 x (List.mem_cons_of_mem r hx))
        (fun x hx => h2 x (List.mem_cons_of_mem r hx))
      exact ⟨ih1.trans hfr, ih2.trans hfi, ih3.trans hfilter⟩

theorem run_rows_completes (alive : Int → Bool) (spawn : String → Option Int) :
    ∀ (rows : List AutorunRow) (st : PassState),
      (∀ r ∈ rows, ∀ raw, r.launch_args_json ≠ PyArgs.nonObj raw) →
      (run_rows alive spawn rows st).2 = none ∧
      (run_rows alive spawn rows st).1.visited
        = st.visited ++ rows.map AutorunRow.component_id := by
  intro rows
  induction rows with
  | nil => intro st h; exact ⟨rfl, by rw [List.map_nil, List.append_nil]; rfl⟩
  | cons r rest ih =>
    intro st h
    have hr := process_row_completes alive spawn st r (h r (List.mem_cons_self r rest))
    rw [run_rows_cons_none rest hr]
    obtain ⟨ih1, ih2⟩ := ih (process_row alive spawn st r).1
      (fun x hx => h x (List.mem_cons_of_mem r hx))
    refine ⟨ih1, ?_⟩
    rw [ih2, process_row_visited, List.map_cons, List.append_assoc]
    rfl

theorem run_rows_events_attempt (alive : Int → Bool) (spawn : String → Option Int) :
    ∀ (rows : List AutorunRow) (st : PassState),
      (∀ e ∈ st.events, e.event_type = "START_ATTEMPT") →
      ∀ e ∈ (run_rows alive spawn rows st).1.events, e.event_type = "START_ATTEMPT" := by
  intro rows
  induction rows with
  | nil => intro st h; exact h
  | cons r rest ih =>
    intro st h
    have hstep : ∀ e ∈ (process_row alive spawn st r).1.events,
        e.event_type = "START_ATTEMPT" := by
      obtain ⟨evs, hev, hall⟩ := process_row_events alive spawn st r
      rw [hev]
      intro e he
      rcases List.mem_append.mp he with he | he
      · exact h e he
      · rw [hall e he]
        rfl
    rw [run_rows_cons]
    rcases hpr : process_row alive spawn st r with ⟨st2, e⟩
    rw [hpr] at hstep
    cases e with
    | some e2 => exact hstep
    | none => exact ih st2 hstep

theorem process_row_eq_ok {alive : Int → Bool} (spawn : String → Option Int)
    {st : PassState} {r : AutorunRow} {args warns : List String}
    (h1 : pid_live st.fs alive r.component_id = false)
    (hok : parse_launch_args "nano_manager" r.component_id r.launch_args_json
      = Except.ok (args, warns)) :
    process_row alive spawn st r = (row_start alive spawn st r args warns, none) := by
  unfold process_row
  rw [if_neg (by rw [h1]; exact Bool.false_ne_true), hok]

theorem process_row_eq_error {alive : Int → Bool} (spawn : String → Option Int)
    {st : PassState} {r : AutorunRow} {e : String}
    (h1 : pid_live st.fs alive r.component_id = false)
    (herr : parse_launch_args "nano_manager" r.component_id r.launch_args_json
      = Except.error e) :
    process_row alive spawn st r =
      (⟨st.fs, st.events, st.console ++ [inactive_msg r.component_id],
        st.visited ++ [r.component_id], st.starts⟩, some e) := by
  unfold process_row
  rw [if_neg (by rw [h1]; exact Bool.false_ne_true), herr]

theorem read_pid_file_of_content {fs : FileSys} {p : String} {i : Int}
    (hr : fs.read p = some (pyStrOfInt i)) (ht : fs.canTouch p = true) :
    read_pid_file fs p = some i := by
  rw [read_pid_file_eq_of_some hr, if_pos ht, pyStrip_pyStrOfInt,
      if_neg (pyStrOfInt_ne_empty i)]
  exact pyInt?_pyStrOfInt i

theorem process_row_console_mono (alive : Int → Bool) (spawn : String → Option Int)
    (st : PassState) (r : AutorunRow) :
    ∃ cs, (process_row alive spawn st r).1.console = st.console ++ cs := by
  unfold process_row
  by_cases h1 : pid_live st.fs alive r.component_id = true
  · rw [if_pos h1]
    exact ⟨[], (List.append_nil _).symm⟩
  · rw [if_neg h1]
    cases hpa : parse_launch_args "nano_manager" r.component_id r.launch_args_json with
    | error e => exact ⟨[inactive_msg r.component_id], rfl⟩
    | ok aw =>
      obtain ⟨args, warns⟩ := aw
      refine ⟨([inactive_msg r.component_id] ++ warns)
        ++ (start_component st.fs alive spawn r.component_id r.base_script_name args
             r.run_type_on_boot).console, ?_⟩
      show ((st.console ++ [inactive_msg r.component_id]) ++ warns) ++ _ = _
      rw [List.append_assoc, List.append_assoc, List.append_assoc]

theorem process_row_starts_mono (alive : Int → Bool) (spawn : String → Option Int)
    (st : PassState) (r : AutorunRow) :
    ∃ ss, (process_row alive spawn st r).1.starts = st.starts ++ ss := by
  unfold process_row
  by_cases h1 : pid_live st.fs alive r.component_id = true
  · rw [if_pos h1]
    exact ⟨[], (List.append_nil _).symm⟩
  · rw [if_neg h1]
    cases hpa : parse_launch_args "nano_manager" r.component_id r.launch_args_json with
    | error e => exact ⟨[], (List.append_nil _).symm⟩
    | ok aw =>
      obtain ⟨args, warns⟩ := aw
      exact ⟨[(r.component_id, args)], rfl⟩

theorem run_rows_console_mem (alive : Int → Bool) (spawn : String → Option Int) :
    ∀ (rows : List AutorunRow) (st : PassState) (x : String), x ∈ st.console →
      x ∈ (run_rows alive spawn rows st).1.console := by
  intro rows
  induction rows with
  | nil => intro st x hx; exact hx
  | cons r rest ih =>
    intro st x hx
    obtain ⟨cs, hcs⟩ := process_row_console_mono alive spawn st r
    have hx2 : x ∈ (process_row alive spawn st r).1.console := by
      rw [hcs]
      exact List.mem_append_left cs hx
    rw [run_rows_cons]
    rcases hpr : process_row alive spawn st r with ⟨st2, e⟩
    rw [hpr] at hx2
    cases e with
    | some e2 => exact hx2
    | none => exact ih st2 x hx2

theorem run_rows_starts_mem (alive : Int → Bool) (spawn : String → Option Int) :
    ∀ (rows : List AutorunRow) (st : PassState) (x : String × List String), x ∈ st.starts →
      x ∈ (run_rows alive spawn rows st).1.starts := by
  intro rows
  induction rows with
  | nil => intro st x hx; exact hx
  | cons r rest ih =>
    intro st x hx
    obtain ⟨ss, hss⟩ := process_row_starts_mono alive spawn st r
    have hx2 : x ∈ (process_row alive spawn st r).1.starts := by
      rw [hss]
      exact List.mem_append_left ss hx
    rw [run_rows_cons]
    rcases hpr : process_row alive spawn st r with ⟨st2, e⟩
    rw [hpr] at hx2
    cases e with
    | some e2 => exact hx2
    | none => exact ih st2 x hx2

theorem row_start_events (alive : Int → Bool) (spawn : String → Option Int)
    (st : PassState) (r : AutorunRow) (args warns : List String) :
    (row_start alive spawn st r args warns).events
      = st.events ++ (start_component st.fs alive spawn r.component_id
          r.base_script_name args r.run_type_on_boot).events := rfl

theorem row_start_fs (alive : Int → Bool) (spawn : String → Option Int)
    (st : PassState) (r : AutorunRow) (args warns : List String) :
    (row_start alive spawn st r args warns).fs
      = (start_component st.fs alive spawn r.component_id
          r.base_script_name args r.run_type_on_boot).fs := rfl

theorem row_start_starts (alive : Int → Bool) (spawn : String → Option Int)
    (st : PassState) (r : AutorunRow) (args warns : List String) :
    (row_start alive spawn st r args warns).starts
      = st.starts ++ [(r.component_id, args)] := rfl

theorem row_start_console (alive : Int → Bool) (spawn : String → Option Int)
    (st : PassState) (r : AutorunRow) (args warns : List String) :
    (row_start alive spawn st r args warns).console
      = ((st.console ++ [inactive_msg r.component_id]) ++ warns)
        ++ (start_component st.fs alive spawn r.component_id
            r.base_script_name args r.run_type_on_boot).console := rfl

theorem run_rows_r_post
    (alive : Int → Bool) (spawn : String → Option Int) (r : AutorunRow)
    (post : List AutorunRow) (st1 : PassState) (fs0 : FileSys)
    (args warns : List String)
    (hok : parse_launch_args "nano_manager" r.component_id r.launch_args_json
      = Except.ok (args, warns))
    (hpost_id : ∀ r2 ∈ post, r2.component_id ≠ r.component_id)
    (hpost_path : ∀ r2 ∈ post, get_pid_file_path PID_DIR r.component_id
      ≠ get_pid_file_path PID_DIR r2.component_id)
    (hlive1 : pid_live st1.fs alive r.component_id = false)
    (htouch1 : st1.fs.canTouch (get_pid_file_path PID_DIR r.component_id) = true)
    (hfil0 : st1.events.filter (fun e => decide (e.component_id = r.component_id)) = [])
    (hread0 : st1.fs.read (get_pid_file_path PID_DIR r.component_id)
      = fs0.read (get_pid_file_path PID_DIR r.component_id))
    (hio0 : st1.fs.ioFail = fs0.ioFail) :
    (st1.fs.pathExists (PROJECT_DIR ++ "/" ++ r.base_script_name) = true →
      ((run_rows alive spawn (r :: post) st1).1.events).filter
          (fun e => decide (e.component_id = r.component_id))
        = [start_attempt_event r.component_id r.base_script_name r.run_type_on_boot] ∧
      (∀ p, spawn r.component_id = some p →
        read_pid_file (run_rows alive spawn (r :: post) st1).1.fs
          (get_pid_file_path PID_DIR r.component_id) = some p) ∧
      (spawn r.component_id = none →
        (run_rows alive spawn (r :: post) st1).1.fs.read
            (get_pid_file_path PID_DIR r.component_id)
          = fs0.read (get_pid_file_path PID_DIR r.component_id))) ∧
    (st1.fs.pathExists (PROJECT_DIR ++ "/" ++ r.base_script_name) = false →
      ((run_rows alive spawn (r :: post) st1).1.events).filter
          (fun e => decide (e.component_id = r.component_id)) = [] ∧
      (run_rows alive spawn (r :: post) st1).1.fs.read
          (get_pid_file_path PID_DIR r.component_id)
        = fs0.read (get_pid_file_path PID_DIR r.component_id)) := by
  have hcons : run_rows alive spawn (r :: post) st1
      = run_rows alive spawn post (row_start alive spawn st1 r args warns) := by
    rw [run_rows_cons_none post (by rw [process_row_eq_ok spawn hlive1 hok]),
        process_row_eq_ok spawn hlive1 hok]
  obtain ⟨hq_read, hq_io, hq_filter⟩ := run_rows_frame alive spawn r.component_id
    (get_pid_file_path PID_DIR r.component_id) post
    (row_start alive spawn st1 r args warns) hpost_id hpost_path
  constructor
  · intro hscript1
    refine ⟨?_, ?_, ?_⟩
    · rw [hcons]
      refine hq_filter.trans ?_
      rw [row_start_events, List.filter_append, hfil0, List.nil_append]
      cases hs : spawn r.component_id with
      | none =>
        rw [start_component_eq_spawn_fail hlive1 hscript1 hs]
        simp [start_attempt_event]
      | some p =>
        rw [start_component_eq_spawn_ok hlive1 hscript1 hs htouch1]
        simp [start_attempt_event]
    · intro p hp
      rw [hcons]
      have h2 : (row_start alive spawn st1 r args warns).fs.read
          (get_pid_file_path PID_DIR r.component_id) = some (pyStrOfInt p) := by
        rw [row_start_fs, start_component_eq_spawn_ok hlive1 hscript1 hp htouch1]
        exact read_write_self st1.fs _ _
      have hio2 : (row_start alive spawn st1 r args warns).fs.ioFail = fs0.ioFail := by
        rw [row_start_fs, start_component_eq_spawn_ok hlive1 hscript1 hp htouch1,
            write_ioFail]
        exact hio0
      have htF : (run_rows alive spawn post
          (row_start alive spawn st1 r args warns)).1.fs.canTouch
          (get_pid_file_path PID_DIR r.component_id) = true := by
        rw [canTouch_of_ioFail_eq (hq_io.trans hio2)]
        rw [← canTouch_of_ioFail_eq hio0]
        exact htouch1
      exact read_pid_file_of_content (hq_read.trans h2) htF
    · intro hn
      rw [hcons]
      refine hq_read.trans ?_
      rw [row_start_fs, start_component_eq_spawn_fail hlive1 hscript1 hn]
      exact hread0
  · intro hscript1
    constructor
    · rw [hcons]
      refine hq_filter.trans ?_
      rw [row_start_events, List.filter_append, hfil0, List.nil_append]
      rw [start_component_eq_missing hlive1 hscript1]
      rfl
    · rw [hcons]
      refine hq_read.trans ?_
      rw [row_start_fs, start_component_eq_missing hlive1 hscript1]
      exact hread0

/-! ## Claim C1 (corrected) -/

/-- C1 (amended): after one reconciliation pass, for a selected
component (desired_state active, nano_manager affinity) with no live
process, whose PID-handle path does not collide with other selected
rows and whose pass is not aborted earlier: if the script file exists,
exactly one START_ATTEMPT row is recorded for it (logged before the
spawn in the source, lines 81-104), and the PID handle afterwards
contains the spawned PID exactly when the spawn succeeded, while a
failed spawn leaves the handle as it was; if the script file is
missing, no lifecycle row at all is recorded for it; and the manager
itself never records a STARTED_SUCCESSFULLY or START_FAILED row — the
only event kind the pass writes is START_ATTEMPT. -/
theorem C1_reconcile_start_events
    (registry : List AutorunRow) (alive : Int → Bool) (spawn : String → Option Int)
    (fs : FileSys) (pre post : List AutorunRow) (r : AutorunRow)
    (hsel : select_components registry "nano_manager" = pre ++ r :: post)
    (hpre_id : ∀ r2 ∈ pre, r2.component_id ≠ r.component_id)
    (hpost_id : ∀ r2 ∈ post, r2.component_id ≠ r.component_id)
    (hpre_path : ∀ r2 ∈ pre, get_pid_file_path PID_DIR r.component_id
      ≠ get_pid_file_path PID_DIR r2.component_id)
    (hpost_path : ∀ r2 ∈ post, get_pid_file_path PID_DIR r.component_id
      ≠ get_pid_file_path PID_DIR r2.component_id)
    (hpre_script : ∀ r2 ∈ pre, PROJECT_DIR ++ "/" ++ r.base_script_name
      ≠ get_pid_file_path PID_DIR r2.component_id)
    (hpre_attr : ∀ r2 ∈ pre, ∀ raw, r2.launch_args_json ≠ PyArgs.nonObj raw)
    (hr_attr : ∀ raw, r.launch_args_json ≠ PyArgs.nonObj raw)
    (hdead : pid_live fs alive r.component_id = false)
    (htouch : fs.canTouch (get_pid_file_path PID_DIR r.component_id) = true) :
    (fs.pathExists (PROJECT_DIR ++ "/" ++ r.base_script_name) = true →
      ((ensure_autorun_components_active registry alive spawn fs).1.events).filter
          (fun e => decide (e.component_id = r.component_id))
        = [start_attempt_event r.component_id r.base_script_name r.run_type_on_boot] ∧
      (∀ p, spawn r.component_id = some p →
        read_pid_file (ensure_autorun_components_active registry alive spawn fs).1.fs
          (get_pid_file_path PID_DIR r.component_id) = some p) ∧
      (spawn r.component_id = none →
        (ensure_autorun_components_active registry alive spawn fs).1.fs.read
            (get_pid_file_path PID_DIR r.component_id)
          = fs.read (get_pid_file_path PID_DIR r.component_id))) ∧
    (fs.pathExists (PROJECT_DIR ++ "/" ++ r.base_script_name) = false →
      ((ensure_autorun_components_active registry alive spawn fs).1.events).filter
          (fun e => decide (e.component_id = r.component_id)) = [] ∧
      (ensure_autorun_components_active registry alive spawn fs).1.fs.read
          (get_pid_file_path PID_DIR r.component_id)
        = fs.read (get_pid_file_path PID_DIR r.component_id)) ∧
    (∀ e ∈ (ensure_autorun_components_active registry alive spawn fs).1.events,
      e.event_type = "START_ATTEMPT") := by
  have hpass : ensure_autorun_components_active registry alive spawn fs
      = run_rows alive spawn (pre ++ r :: post) ⟨fs, [], [], [], []⟩ := by
    unfold ensure_autorun_components_active
    rw [hsel]
  have hsplit : run_rows alive spawn (pre ++ r :: post) (⟨fs, [], [], [], []⟩ : PassState)
      = run_rows alive spawn (r :: post)
          (run_rows alive spawn pre (⟨fs, [], [], [], []⟩ : PassState)).1 := by
    rw [run_rows_append]
    have hd := (run_rows_completes alive spawn pre ⟨fs, [], [], [], []⟩ hpre_attr).1
    rcases hrr : run_rows alive spawn pre (⟨fs, [], [], [], []⟩ : PassState) with ⟨s1, e1⟩
    rw [hrr] at hd
    cases e1 with
    | none => rfl
    | some e2 => exact Option.noConfusion hd
  obtain ⟨hp_read, hp_io, hp_filter⟩ := run_rows_frame alive spawn r.component_id
    (get_pid_file_path PID_DIR r.component_id) pre ⟨fs, [], [], [], []⟩ hpre_id hpre_path
  obtain ⟨hp_sread, hp_sio, hp_sfilter⟩ := run_rows_frame alive spawn r.component_id
    (PROJECT_DIR ++ "/" ++ r.base_script_name) pre ⟨fs, [], [], [], []⟩ hpre_id hpre_script
  obtain ⟨args, warns, hok⟩ := parse_ok_of_not_nonObj "nano_manager" r.component_id hr_attr
  have hlive1 : pid_live
      (run_rows alive spawn pre (⟨fs, [], [], [], []⟩ : PassState)).1.fs
      alive r.component_id = false := by
    rw [pid_live_congr hp_read hp_io]
    exact hdead
  have htouch1 : (run_rows alive spawn pre (⟨fs, [], [], [], []⟩ : PassState)).1.fs.canTouch
      (get_pid_file_path PID_DIR r.component_id) = true := by
    rw [canTouch_of_ioFail_eq hp_io]
    exact htouch
  have hfil1 : ((run_rows alive spawn pre
      (⟨fs, [], [], [], []⟩ : PassState)).1.events).filter
      (fun e => decide (e.component_id = r.component_id)) = [] := hp_filter
  have hcore := run_rows_r_post alive spawn r post
    (run_rows alive spawn pre (⟨fs, [], [], [], []⟩ : PassState)).1 fs args warns hok
    hpost_id hpost_path hlive1 htouch1 hfil1 hp_read hp_io
  refine ⟨?_, ?_, ?_⟩
  · intro hscript
    have hscript1 : (run_rows alive spawn pre
        (⟨fs, [], [], [], []⟩ : PassState)).1.fs.pathExists
        (PROJECT_DIR ++ "/" ++ r.base_script_name) = true := by
      rw [pathExists_congr hp_sread]
      exact hscript
    rw [hpass, hsplit]
    exact hcore.1 hscript1
  · intro hscript
    have hscript1 : (run_rows alive spawn pre
        (⟨fs, [], [], [], []⟩ : PassState)).1.fs.pathExists
        (PROJECT_DIR ++ "/" ++ r.base_script_name) = false := by
      rw [pathExists_congr hp_sread]
      exact hscript
    rw [hpass, hsplit]
    exact hcore.2 hscript1
  · rw [hpass]
    exact run_rows_events_attempt alive spawn (pre ++ r :: post) ⟨fs, [], [], [], []⟩
      (fun e he => absurd he (List.not_mem_nil e))

/-- C1 counterexample, refuting the claim as stated on four concrete
runs of one reconciliation pass: (a) a component whose script file is
missing gets no lifecycle row at all, not "exactly one START_ATTEMPT";
(b) a spawn failure records only START_ATTEMPT — no START_FAILED row
exists; (c) a successful spawn records no STARTED_SUCCESSFULLY row;
(d) after a spawn failure a pre-existing stale PID handle is still
present, not absent. -/
theorem C1_counterexample :
    (ensure_autorun_components_active
        [⟨"n1", "missing.py", PyArgs.absent, "BOOT", "nano_manager", "active"⟩]
        (fun _ => false) (fun _ => none) ⟨[], []⟩).1.events = [] ∧
    (ensure_autorun_components_active
        [⟨"n1", "nano_instance.py", PyArgs.absent, "BOOT", "nano_manager", "active"⟩]
        (fun _ => false) (fun _ => none)
        ⟨[(PROJECT_DIR ++ "/nano_instance.py", "code")], []⟩).1.events
      = [start_attempt_event "n1" "nano_instance.py" "BOOT"] ∧
    ((ensure_autorun_components_active
        [⟨"n1", "nano_instance.py", PyArgs.absent, "BOOT", "nano_manager", "active"⟩]
        (fun _ => false) (fun _ => none)
        ⟨[(PROJECT_DIR ++ "/nano_instance.py", "code")], []⟩).1.events).filter
        (fun e => decide (e.event_type = "START_FAILED")) = [] ∧
    ((ensure_autorun_components_active
        [⟨"n1", "nano_instance.py", PyArgs.absent, "BOOT", "nano_manager", "active"⟩]
        (fun _ => false) (fun _ => some 7)
        ⟨[(PROJECT_DIR ++ "/nano_instance.py", "code")], []⟩).1.events).filter
        (fun e => decide (e.event_type = "STARTED_SUCCESSFULLY")) = [] ∧
    (ensure_autorun_components_active
        [⟨"n1", "nano_instance.py", PyArgs.absent, "BOOT", "nano_manager", "active"⟩]
        (fun _ => false) (fun _ => none)
        ⟨[(PROJECT_DIR ++ "/nano_instance.py", "code"),
          (get_pid_file_path PID_DIR "n1", "99")], []⟩).1.fs.read
        (get_pid_file_path PID_DIR "n1") = some "99" := by
  decide

/-- Witness for C1 (amended): a two-component nano registry plus a
daemon-owned row; component n1 starts with spawned pid 4242, records
exactly one START_ATTEMPT, and its handle holds 4242. -/
theorem C1_witness :
    ((ensure_autorun_components_active
        [⟨"n1", "nano_instance.py", PyArgs.absent, "BOOT", "nano_manager", "active"⟩,
         ⟨"n2", "nano_instance.py", PyArgs.absent, "BOOT", "nano_manager", "active"⟩,
         ⟨"d1", "temp_main_daemon.py", PyArgs.absent, "BOOT", "daemon_manager", "active"⟩]
        (fun _ => false) (fun _ => some 4242)
        ⟨[(PROJECT_DIR ++ "/nano_instance.py", "code")], []⟩).1.events).filter
        (fun e => decide (e.component_id = "n1"))
      = [start_attempt_event "n1" "nano_instance.py" "BOOT"] ∧
    read_pid_file (ensure_autorun_components_active
        [⟨"n1", "nano_instance.py", PyArgs.absent, "BOOT", "nano_manager", "active"⟩,
         ⟨"n2", "nano_instance.py", PyArgs.absent, "BOOT", "nano_manager", "active"⟩,
         ⟨"d1", "temp_main_daemon.py", PyArgs.absent, "BOOT", "daemon_manager", "active"⟩]
        (fun _ => false) (fun _ => some 4242)
        ⟨[(PROJECT_DIR ++ "/nano_instance.py", "code")], []⟩).1.fs
      (get_pid_file_path PID_DIR "n1") = some 4242 := by
  have h := C1_reconcile_start_events
    [⟨"n1", "nano_instance.py", PyArgs.absent, "BOOT", "nano_manager", "active"⟩,
     ⟨"n2", "nano_instance.py", PyArgs.absent, "BOOT", "nano_manager", "active"⟩,
     ⟨"d1", "temp_main_daemon.py", PyArgs.absent, "BOOT", "daemon_manager", "active"⟩]
    (fun _ => false) (fun _ => some 4242)
    ⟨[(PROJECT_DIR ++ "/nano_instance.py", "code")], []⟩
    [] [⟨"n2", "nano_instance.py", PyArgs.absent, "BOOT", "nano_manager", "active"⟩]
    ⟨"n1", "nano_instance.py", PyArgs.absent, "BOOT", "nano_manager", "active"⟩
    (by decide)
    (by intro r2 hr2; cases hr2)
    (by decide)
    (by intro r2 hr2; cases hr2)
    (by decide)
    (by intro r2 hr2; cases hr2)
    (by intro r2 hr2; cases hr2)
    (by intro raw hraw; cases hraw)
    (by decide) (by decide)
  obtain ⟨hfil, hsome, _⟩ := h.1 (by decide)
  exact ⟨hfil, hsome 4242 rfl⟩

/-! ## Claim C7 -/

/-- C7: when a selected component carries serialized launch arguments
that fail to parse (json.loads raises JSONDecodeError), the pass prints
the warning, treats the component as having no extra arguments, still
invokes the start for it with an empty argument list, no exception
escapes the pass, and every selected component is still visited.  The
hypothesis that no selected row parses to a non-object excludes the
unrelated AttributeError path; hypotheses on pre rule out a PID-path
collision that could hide the component behind a foreign handle. -/
theorem C7_malformed_args_behavior
    (registry : List AutorunRow) (alive : Int → Bool) (spawn : String → Option Int)
    (fs : FileSys) (pre post : List AutorunRow) (r : AutorunRow) (raw : String)
    (hsel : select_components registry "nano_manager" = pre ++ r :: post)
    (hmal : r.launch_args_json = PyArgs.malformed raw)
    (hpre_id : ∀ r2 ∈ pre, r2.component_id ≠ r.component_id)
    (hpre_path : ∀ r2 ∈ pre, get_pid_file_path PID_DIR r.component_id
      ≠ get_pid_file_path PID_DIR r2.component_id)
    (hall_attr : ∀ r2 ∈ select_components registry "nano_manager",
      ∀ raw2, r2.launch_args_json ≠ PyArgs.nonObj raw2)
    (hdead : pid_live fs alive r.component_id = false) :
    (ensure_autorun_components_active registry alive spawn fs).2 = none ∧
    (ensure_autorun_components_active registry alive spawn fs).1.visited
      = (select_components registry "nano_manager").map AutorunRow.component_id ∧
    ("[nano_manager] WARNING: Could not parse launch_args_json for "
        ++ r.component_id ++ ": " ++ raw)
      ∈ (ensure_autorun_components_active registry alive spawn fs).1.console ∧
    (r.component_id, ([] : List String))
      ∈ (ensure_autorun_components_active registry alive spawn fs).1.starts := by
  have hpass : ensure_autorun_components_active registry alive spawn fs
      = run_rows alive spawn (pre ++ r :: post) ⟨fs, [], [], [], []⟩ := by
    unfold ensure_autorun_components_active
    rw [hsel]
  have hall2 : ∀ r2 ∈ pre ++ r :: post, ∀ raw2, r2.launch_args_json ≠ PyArgs.nonObj raw2 :=
    hsel ▸ hall_attr
  have hpre_attr : ∀ r2 ∈ pre, ∀ raw2, r2.launch_args_json ≠ PyArgs.nonObj raw2 :=
    fun r2 hr2 => hall2 r2 (List.mem_append_left _ hr2)
  obtain ⟨hdone, hvis⟩ :=
    run_rows_completes alive spawn (pre ++ r :: post) ⟨fs, [], [], [], []⟩ hall2
  have hsplit : run_rows alive spawn (pre ++ r :: post) (⟨fs, [], [], [], []⟩ : PassState)
      = run_rows alive spawn (r :: post)
          (run_rows alive spawn pre (⟨fs, [], [], [], []⟩ : PassState)).1 := by
    rw [run_rows_append]
    have hd := (run_rows_completes alive spawn pre ⟨fs, [], [], [], []⟩ hpre_attr).1
    rcases hrr : run_rows alive spawn pre (⟨fs, [], [], [], []⟩ : PassState) with ⟨s1, e1⟩
    rw [hrr] at hd
    cases e1 with
    | none => rfl
    | some e2 => exact Option.noConfusion hd
  obtain ⟨hp_read, hp_io, hp_filter⟩ := run_rows_frame alive spawn r.component_id
    (get_pid_file_path PID_DIR r.component_id) pre ⟨fs, [], [], [], []⟩ hpre_id hpre_path
  have hlive1 : pid_live
      (run_rows alive spawn pre (⟨fs, [], [], [], []⟩ : PassState)).1.fs
      alive r.component_id = false := by
    rw [pid_live_congr hp_read hp_io]
    exact hdead
  have hok : parse_launch_args "nano_manager" r.component_id r.launch_args_json
      = Except.ok (([] : List String),
          ["[" ++ "nano_manager" ++ "] WARNING: Could not parse launch_args_json for "
            ++ r.component_id ++ ": " ++ raw]) := by
    rw [hmal]
    rfl
  have hrun2 : run_rows alive spawn (r :: post)
      (run_rows alive spawn pre (⟨fs, [], [], [], []⟩ : PassState)).1
      = run_rows alive spawn post
          (row_start alive spawn
            (run_rows alive spawn pre (⟨fs, [], [], [], []⟩ : PassState)).1 r []
            ["[" ++ "nano_manager" ++ "] WARNING: Could not parse launch_args_json for "
              ++ r.component_id ++ ": " ++ raw]) := by
    rw [run_rows_cons_none post (by rw [process_row_eq_ok spawn hlive1 hok]),
        process_row_eq_ok spawn hlive1 hok]
  have hseg : ("[" ++ "nano_manager"
        ++ "] WARNING: Could not parse launch_args_json for " : String)
      = "[nano_manager] WARNING: Could not parse launch_args_json for " := by
    decide
  have hw : ("[nano_manager] WARNING: Could not parse launch_args_json for "
        ++ r.component_id ++ ": " ++ raw)
      ∈ (row_start alive spawn
          (run_rows alive spawn pre (⟨fs, [], [], [], []⟩ : PassState)).1 r []
          ["[" ++ "nano_manager" ++ "] WARNING: Could not parse launch_args_json for "
            ++ r.component_id ++ ": " ++ raw]).console := by
    rw [row_start_console]
    refine List.mem_append_left _ (List.mem_append_right _ ?_)
    rw [List.mem_singleton, hseg]
  have hst : (r.component_id, ([] : List String))
      ∈ (row_start alive spawn
          (run_rows alive spawn pre (⟨fs, [], [], [], []⟩ : PassState)).1 r []
          ["[" ++ "nano_manager" ++ "] WARNING: Could not parse launch_args_json for "
            ++ r.component_id ++ ": " ++ raw]).starts := by
    rw [row_start_starts]
    exact List.mem_append_right _ (List.mem_singleton.mpr rfl)
  refine ⟨?_, ?_, ?_, ?_⟩
  · rw [hpass]
    exact hdone
  · rw [hpass, hsel]
    exact hvis
  · rw [hpass, hsplit, hrun2]
    exact run_rows_console_mem alive spawn post _ _ hw
  · rw [hpass, hsplit, hrun2]
    exact run_rows_starts_mem alive spawn post _ _ hst

/-- Witness for C7: a single nano component with unparseable launch
arguments is still started with no extra arguments, the warning is
printed, nothing escapes the pass, and the component is visited. -/
theorem C7_witness :
    (ensure_autorun_components_active
        [⟨"n1", "nano_instance.py", PyArgs.malformed "oops", "BOOT", "nano_manager",
          "active"⟩] (fun _ => false) (fun _ => some 7) ⟨[], []⟩).2 = none ∧
    (ensure_autorun_components_active
        [⟨"n1", "nano_instance.py", PyArgs.malformed "oops", "BOOT", "nano_manager",
          "active"⟩] (fun _ => false) (fun _ => some 7) ⟨[], []⟩).1.visited = ["n1"] ∧
    ("[nano_manager] WARNING: Could not parse launch_args_json for "
        ++ "n1" ++ ": " ++ "oops")
      ∈ (ensure_autorun_components_active
        [⟨"n1", "nano_instance.py", PyArgs.malformed "oops", "BOOT", "nano_manager",
          "active"⟩] (fun _ => false) (fun _ => some 7) ⟨[], []⟩).1.console ∧
    ("n1", ([] : List String))
      ∈ (ensure_autorun_components_active
        [⟨"n1", "nano_instance.py", PyArgs.malformed "oops", "BOOT", "nano_manager",
          "active"⟩] (fun _ => false) (fun _ => some 7) ⟨[], []⟩).1.starts := by
  have h := C7_malformed_args_behavior
    [⟨"n1", "nano_instance.py", PyArgs.malformed "oops", "BOOT", "nano_manager", "active"⟩]
    (fun _ => false) (fun _ => some 7) ⟨[], []⟩ [] []
    ⟨"n1", "nano_instance.py", PyArgs.malformed "oops", "BOOT", "nano_manager", "active"⟩
    "oops" (by decide) rfl
    (by intro r2 hr2; cases hr2)
    (by intro r2 hr2; cases hr2)
    (by
      intro r2 hr2 raw2 hcon
      have hr2e : r2 = ⟨"n1", "nano_instance.py", PyArgs.malformed "oops", "BOOT",
          "nano_manager", "active"⟩ := by
        rw [show select_components
            [⟨"n1", "nano_instance.py", PyArgs.malformed "oops", "BOOT", "nano_manager",
              "active"⟩] "nano_manager"
            = [⟨"n1", "nano_instance.py", PyArgs.malformed "oops", "BOOT", "nano_manager",
              "active"⟩] from by decide] at hr2
        exact List.mem_singleton.mp hr2
      subst hr2e
      cases hcon)
    (by decide)
  exact h

end N0m1
